import Mathlib

/-!  Shallow embedding of the weather-dashboard browser client
     (file src/App.tsx of the repository): the data contracts, the
     daily-forecast summarizer pickDaily, the search orchestration
     runSearch, the recent-cities update saveRecent, and the persisted
     recent-cities loader.  JavaScript floating-point payload fields
     (temperatures, wind, coordinates) are modelled as rationals; no
     verified claim performs arithmetic on them.  Strings are processed
     through their character lists so that every definition evaluates
     inside the kernel. -/

namespace WeatherDash

/-! ## JavaScript string primitives -/

/-- Characters stripped by JavaScript String.prototype.trim and by the
    whitespace phase of Number's string conversion (ECMA-262 WhiteSpace
    plus LineTerminator). -/
def jsWhitespaceChar (c : Char) : Bool :=
  let n := c.toNat
  n = 0x9 || n = 0xa || n = 0xb || n = 0xc || n = 0xd || n = 0x20 || n = 0xa0 ||
    n = 0x1680 || (0x2000 ≤ n && n ≤ 0x200a) || n = 0x2028 || n = 0x2029 ||
    n = 0x202f || n = 0x205f || n = 0x3000 || n = 0xfeff

/-- JavaScript String.prototype.trim, on the character list of a string. -/
def jsTrim (cs : List Char) : List Char :=
  ((cs.dropWhile jsWhitespaceChar).reverse.dropWhile jsWhitespaceChar).reverse

/-- Helper for jsSplit: accumulates the current chunk (reversed). -/
def jsSplitAux (sep : Char) : List Char → List Char → List (List Char)
  | [], acc => [acc.reverse]
  | c :: cs, acc =>
    if c = sep then acc.reverse :: jsSplitAux sep cs []
    else jsSplitAux sep cs (c :: acc)

/-- JavaScript String.prototype.split with a single-character separator:
    the (never empty) list of possibly-empty chunks between occurrences of
    the separator. -/
def jsSplit (sep : Char) (cs : List Char) : List (List Char) :=
  jsSplitAux sep cs []

/-- Value of a list of decimal digits. -/
def digitsVal (ds : List Char) : ℕ :=
  ds.foldl (fun a c => 10 * a + (c.toNat - 48)) 0

/-- JavaScript Number(string), scaled by 10 so that it lands in ℤ, on the
    grammar reachable from the two-code-unit slices pickDaily feeds it
    (sign, digits, one dot, at most one fractional digit — every such value
    is a multiple of 1/10; hex, exponent and Infinity literals need at
    least three code units, and a bare "0x" prefix is NaN in JavaScript
    exactly as here).  none models NaN. -/
def jsStringToNumberX10 (s : List Char) : Option ℤ :=
  let cs := jsTrim s
  match cs with
  | [] => some 0
  | _ =>
    let sgn : ℤ × List Char :=
      match cs with
      | '-' :: r => (-1, r)
      | '+' :: r => (1, r)
      | r => (1, r)
    let intPart := sgn.2.takeWhile Char.isDigit
    let rest := sgn.2.dropWhile Char.isDigit
    match rest with
    | [] =>
      if intPart.isEmpty then none
      else some (sgn.1 * (10 * (digitsVal intPart : ℤ)))
    | '.' :: fr =>
      let fracPart := fr.takeWhile Char.isDigit
      let rest2 := fr.dropWhile Char.isDigit
      if ¬ rest2.isEmpty then none
      else if intPart.isEmpty ∧ fracPart.isEmpty then none
      else
        match fracPart with
        | [] => some (sgn.1 * (10 * (digitsVal intPart : ℤ)))
        | [d] =>
          some (sgn.1 * (10 * (digitsVal intPart : ℤ) + ((d.toNat : ℤ) - 48)))
        | _ => none
    | _ => none

/-- Models Number(t.slice(0, 2)) for a JavaScript string t, scaled by 10:
    slice counts UTF-16 code units, so an astral first character is kept
    whole, while an astral second character is cut into a lone high
    surrogate, making the slice non-numeric (NaN, modelled as none). -/
def hourOfX10 (t : List Char) : Option ℤ :=
  match t with
  | [] => jsStringToNumberX10 []
  | [c] => jsStringToNumberX10 [c]
  | c1 :: c2 :: _ =>
    if 0x10000 ≤ c1.toNat then jsStringToNumberX10 [c1]
    else if 0x10000 ≤ c2.toNat then none
    else jsStringToNumberX10 [c1, c2]

/-! ## Data contracts (the TypeScript interfaces of src/App.tsx) -/

/-- The Geo interface: one geocoding match. -/
structure Geo where
  name : String
  lat : ℚ
  lon : ℚ
  country : String
  state : Option String
deriving DecidableEq, Repr

/-- One condition descriptor of the weather payloads. -/
structure WeatherCond where
  id : ℤ
  main : String
  description : String
  icon : String
deriving DecidableEq, Repr

/-- Wind data. -/
structure Wind where
  speed : ℚ
  deg : ℚ
deriving DecidableEq, Repr

/-- The sys block of the WeatherNow interface. -/
structure SysInfo where
  country : String
  sunrise : ℤ
  sunset : ℤ
deriving DecidableEq, Repr

/-- The main block of the WeatherNow interface. -/
structure MainTemps where
  temp : ℚ
  feels_like : ℚ
  humidity : ℚ
  pressure : ℚ
  temp_min : ℚ
  temp_max : ℚ
deriving DecidableEq, Repr

/-- The WeatherNow interface: current conditions. -/
structure WeatherNow where
  name : String
  dt : ℤ
  sys : SysInfo
  weather : List WeatherCond
  main : MainTemps
  wind : Wind
  visibility : ℚ
deriving DecidableEq, Repr

/-- The main block of the ForecastItem interface. -/
structure FMain where
  temp : ℚ
  feels_like : ℚ
  humidity : ℚ
deriving DecidableEq, Repr

/-- The ForecastItem interface: one raw 3-hour forecast sample. -/
structure ForecastItem where
  dt : ℤ
  dt_txt : String
  main : FMain
  weather : List WeatherCond
  wind : Wind
deriving DecidableEq, Repr

/-- The city block of the ForecastRes interface. -/
structure CityMeta where
  name : String
  country : String
  timezone : ℤ
deriving DecidableEq, Repr

/-- The ForecastRes interface: the raw forecast feed. -/
structure ForecastRes where
  list : List ForecastItem
  city : CityMeta
deriving DecidableEq, Repr

/-! ## The summarizer pickDaily -/

/-- The grouping key of pickDaily: item.dt_txt.split(' ')[0]. -/
def dayOf (it : ForecastItem) : List Char :=
  (jsSplit ' ' it.dt_txt.data).headD []

/-- The time component it.dt_txt.split(' ')[1]; none models the JavaScript
    undefined, on which .slice raises a TypeError. -/
def timePart (it : ForecastItem) : Option (List Char) :=
  (jsSplit ' ' it.dt_txt.data)[1]?

/-- Math.abs(12 - Number(it.dt_txt.split(' ')[1].slice(0, 2))), scaled by
    10 like the hour itself (the scaling preserves every comparison the
    selection loop makes): error models the TypeError raised when dt_txt
    holds no space, and the inner none models a NaN distance. -/
def hourDiffE (it : ForecastItem) : Except Unit (Option ℤ) :=
  match timePart it with
  | none => .error ()
  | some t => .ok ((hourOfX10 t).map (fun h => |120 - h|))

/-- The selection loop of pickDaily over one day's group, threading
    (best, bestDiff); bestDiff = none is the initial Infinity.  A NaN
    distance never updates the best because NaN < bestDiff is false in
    JavaScript. -/
def selGo : ForecastItem → Option ℤ → List ForecastItem →
    Except Unit (ForecastItem × Option ℤ)
  | best, bestDiff, [] => .ok (best, bestDiff)
  | best, bestDiff, it :: rest =>
    match hourDiffE it with
    | .error _ => .error ()
    | .ok none => selGo best bestDiff rest
    | .ok (some d) =>
      match bestDiff with
      | none => selGo it (some d) rest
      | some bd =>
        if d < bd then selGo it (some d) rest else selGo best bestDiff rest

/-- The grouping record of pickDaily.  A group is intrinsically non-empty
    (its first item plus the later ones, in push order), matching the
    JavaScript object whose entries are created with their first item. -/
abbrev Groups := List (List Char × ForecastItem × List ForecastItem)

/-- groups[day] ??= []; groups[day].push(item): append to the existing
    group, or create a new entry (JavaScript appends fresh string keys at
    the end of the enumeration order). -/
def insertGroup (day : List Char) (it : ForecastItem) : Groups → Groups
  | [] => [(day, it, [])]
  | (d, f, items) :: rest =>
    if d = day then (d, f, items ++ [it]) :: rest
    else (d, f, items) :: insertGroup day it rest

/-- The grouping pass of pickDaily. -/
def buildGroups (list : List ForecastItem) : Groups :=
  list.foldl (fun gs it => insertGroup (dayOf it) it gs) []

/-- Lookup of a day's group. -/
def lookupG : Groups → List Char → Option (ForecastItem × List ForecastItem)
  | [], _ => none
  | (d, f, items) :: rest, day =>
    if d = day then some (f, items) else lookupG rest day

/-- Object.keys(groups). -/
def keysOf (gs : Groups) : List (List Char) :=
  gs.map (fun g => g.1)

/-- UTF-16 encoding of one Unicode scalar value. -/
def encU16 (n : ℕ) : List ℕ :=
  if n < 0x10000 then [n]
  else [0xd800 + (n - 0x10000) / 0x400, 0xdc00 + (n - 0x10000) % 0x400]

/-- UTF-16 code-unit sequence of a list of scalar values. -/
def encList (l : List ℕ) : List ℕ :=
  l.foldr (fun n acc => encU16 n ++ acc) []

/-- UTF-16 code units of a character list. -/
def strU16 (cs : List Char) : List ℕ :=
  encList (cs.map Char.toNat)

/-- Lexicographic order on code-unit sequences. -/
def ltU16 : List ℕ → List ℕ → Bool
  | [], [] => false
  | [], _ :: _ => true
  | _ :: _, [] => false
  | a :: as, b :: bs => if a < b then true else if b < a then false else ltU16 as bs

/-- The default comparison of Array.prototype.sort: UTF-16 code-unit
    lexicographic order on strings. -/
def keyLt (a b : List Char) : Bool :=
  ltU16 (strU16 a) (strU16 b)

/-- Insertion into a sorted key list. -/
def insertSorted (s : List Char) : List (List Char) → List (List Char)
  | [] => [s]
  | t :: ts => if keyLt s t then s :: t :: ts else t :: insertSorted s ts

/-- Object.keys(groups).sort(): on the pairwise-distinct keys produced by
    grouping, every comparison sort returns the unique ordering by keyLt,
    here realised by insertion sort. -/
def sortKeys (l : List (List Char)) : List (List Char) :=
  l.foldr insertSorted []

/-- The per-day selection pass of pickDaily: for each day, run the
    selection loop on its group (starting from items[0] with bestDiff
    Infinity, scanning the whole group) and push the best. -/
def collectBests (groups : Groups) : List (List Char) →
    Except Unit (List ForecastItem)
  | [] => .ok []
  | day :: rest =>
    match lookupG groups day with
    | none => .error ()
    | some (f, items) =>
      match selGo f none (f :: items) with
      | .error e => .error e
      | .ok (b, _) =>
        match collectBests groups rest with
        | .error e => .error e
        | .ok bs => .ok (b :: bs)

/-- pickDaily of src/App.tsx: group by the date component of dt_txt, sort
    the day keys, select the item closest to 12:00 within each day (strict
    improvement only, so the first minimum wins), return the first 5.
    error models the TypeError raised when some item's dt_txt has no space
    (its split has no element 1). -/
def pickDaily (list : List ForecastItem) : Except Unit (List ForecastItem) :=
  let groups := buildGroups list
  let days := sortKeys (keysOf groups)
  (collectBests groups days).map (fun rs => rs.take 5)

/-! ## The search orchestrator -/

/-- One compressed rule of the Unicode full lowercase mapping: code points
    lo, lo + step, ..., hi map by adding delta. -/
structure CaseRule where
  lo : ℕ
  hi : ℕ
  step : ℕ
  delta : ℤ

/-- The single-character part of the Unicode (14.0) full lowercase mapping
    used by String.prototype.toLowerCase, compressed into arithmetic
    rules; U+0130 (the only code point whose full lowercase mapping has
    more than one character) and the context-dependent U+03A3 are handled
    separately. -/
def lowerRules : List CaseRule :=
  [CaseRule.mk 0x41 0x5a 1 32,
   CaseRule.mk 0xc0 0xd6 1 32,
   CaseRule.mk 0xd8 0xde 1 32,
   CaseRule.mk 0x100 0x12e 2 1,
   CaseRule.mk 0x132 0x136 2 1,
   CaseRule.mk 0x139 0x147 2 1,
   CaseRule.mk 0x14a 0x176 2 1,
   CaseRule.mk 0x178 0x178 1 (-121),
   CaseRule.mk 0x179 0x17d 2 1,
   CaseRule.mk 0x181 0x181 1 210,
   CaseRule.mk 0x182 0x184 2 1,
   CaseRule.mk 0x186 0x186 1 206,
   CaseRule.mk 0x187 0x187 1 1,
   CaseRule.mk 0x189 0x18a 1 205,
   CaseRule.mk 0x18b 0x18b 1 1,
   CaseRule.mk 0x18e 0x18e 1 79,
   CaseRule.mk 0x18f 0x18f 1 202,
   CaseRule.mk 0x190 0x190 1 203,
   CaseRule.mk 0x191 0x191 1 1,
   CaseRule.mk 0x193 0x193 1 205,
   CaseRule.mk 0x194 0x194 1 207,
   CaseRule.mk 0x196 0x196 1 211,
   CaseRule.mk 0x197 0x197 1 209,
   CaseRule.mk 0x198 0x198 1 1,
   CaseRule.mk 0x19c 0x19c 1 211,
   CaseRule.mk 0x19d 0x19d 1 213,
   CaseRule.mk 0x19f 0x19f 1 214,
   CaseRule.mk 0x1a0 0x1a4 2 1,
   CaseRule.mk 0x1a6 0x1a6 1 218,
   CaseRule.mk 0x1a7 0x1a7 1 1,
   CaseRule.mk 0x1a9 0x1a9 1 218,
   CaseRule.mk 0x1ac 0x1ac 1 1,
   CaseRule.mk 0x1ae 0x1ae 1 218,
   CaseRule.mk 0x1af 0x1af 1 1,
   CaseRule.mk 0x1b1 0x1b2 1 217,
   CaseRule.mk 0x1b3 0x1b5 2 1,
   CaseRule.mk 0x1b7 0x1b7 1 219,
   CaseRule.mk 0x1b8 0x1b8 1 1,
   CaseRule.mk 0x1bc 0x1bc 1 1,
   CaseRule.mk 0x1c4 0x1c4 1 2,
   CaseRule.mk 0x1c5 0x1c5 1 1,
   CaseRule.mk 0x1c7 0x1c7 1 2,
   CaseRule.mk 0x1c8 0x1c8 1 1,
   CaseRule.mk 0x1ca 0x1ca 1 2,
   CaseRule.mk 0x1cb 0x1db 2 1,
   CaseRule.mk 0x1de 0x1ee 2 1,
   CaseRule.mk 0x1f1 0x1f1 1 2,
   CaseRule.mk 0x1f2 0x1f4 2 1,
   CaseRule.mk 0x1f6 0x1f6 1 (-97),
   CaseRule.mk 0x1f7 0x1f7 1 (-56),
   CaseRule.mk 0x1f8 0x21e 2 1,
   CaseRule.mk 0x220 0x220 1 (-130),
   CaseRule.mk 0x222 0x232 2 1,
   CaseRule.mk 0x23a 0x23a 1 10795,
   CaseRule.mk 0x23b 0x23b 1 1,
   CaseRule.mk 0x23d 0x23d 1 (-163),
   CaseRule.mk 0x23e 0x23e 1 10792,
   CaseRule.mk 0x241 0x241 1 1,
   CaseRule.mk 0x243 0x243 1 (-195),
   CaseRule.mk 0x244 0x244 1 69,
   CaseRule.mk 0x245 0x245 1 71,
   CaseRule.mk 0x246 0x24e 2 1,
   CaseRule.mk 0x370 0x372 2 1,
   CaseRule.mk 0x376 0x376 1 1,
   CaseRule.mk 0x37f 0x37f 1 116,
   CaseRule.mk 0x386 0x386 1 38,
   CaseRule.mk 0x388 0x38a 1 37,
   CaseRule.mk 0x38c 0x38c 1 64,
   CaseRule.mk 0x38e 0x38f 1 63,
   CaseRule.mk 0x391 0x3a1 1 32,
   CaseRule.mk 0x3a3 0x3ab 1 32,
   CaseRule.mk 0x3cf 0x3cf 1 8,
   CaseRule.mk 0x3d8 0x3ee 2 1,
   CaseRule.mk 0x3f4 0x3f4 1 (-60),
   CaseRule.mk 0x3f7 0x3f7 1 1,
   CaseRule.mk 0x3f9 0x3f9 1 (-7),
   CaseRule.mk 0x3fa 0x3fa 1 1,
   CaseRule.mk 0x3fd 0x3ff 1 (-130),
   CaseRule.mk 0x400 0x40f 1 80,
   CaseRule.mk 0x410 0x42f 1 32,
   CaseRule.mk 0x460 0x480 2 1,
   CaseRule.mk 0x48a 0x4be 2 1,
   CaseRule.mk 0x4c0 0x4c0 1 15,
   CaseRule.mk 0x4c1 0x4cd 2 1,
   CaseRule.mk 0x4d0 0x52e 2 1,
   CaseRule.mk 0x531 0x556 1 48,
   CaseRule.mk 0x10a0 0x10c5 1 7264,
   CaseRule.mk 0x10c7 0x10c7 1 7264,
   CaseRule.mk 0x10cd 0x10cd 1 7264,
   CaseRule.mk 0x13a0 0x13ef 1 38864,
   CaseRule.mk 0x13f0 0x13f5 1 8,
   CaseRule.mk 0x1c90 0x1cba 1 (-3008),
   CaseRule.mk 0x1cbd 0x1cbf 1 (-3008),
   CaseRule.mk 0x1e00 0x1e94 2 1,
   CaseRule.mk 0x1e9e 0x1e9e 1 (-7615),
   CaseRule.mk 0x1ea0 0x1efe 2 1,
   CaseRule.mk 0x1f08 0x1f0f 1 (-8),
   CaseRule.mk 0x1f18 0x1f1d 1 (-8),
   CaseRule.mk 0x1f28 0x1f2f 1 (-8),
   CaseRule.mk 0x1f38 0x1f3f 1 (-8),
   CaseRule.mk 0x1f48 0x1f4d 1 (-8),
   CaseRule.mk 0x1f59 0x1f5f 2 (-8),
   CaseRule.mk 0x1f68 0x1f6f 1 (-8),
   CaseRule.mk 0x1f88 0x1f8f 1 (-8),
   CaseRule.mk 0x1f98 0x1f9f 1 (-8),
   CaseRule.mk 0x1fa8 0x1faf 1 (-8),
   CaseRule.mk 0x1fb8 0x1fb9 1 (-8),
   CaseRule.mk 0x1fba 0x1fbb 1 (-74),
   CaseRule.mk 0x1fbc 0x1fbc 1 (-9),
   CaseRule.mk 0x1fc8 0x1fcb 1 (-86),
   CaseRule.mk 0x1fcc 0x1fcc 1 (-9),
   CaseRule.mk 0x1fd8 0x1fd9 1 (-8),
   CaseRule.mk 0x1fda 0x1fdb 1 (-100),
   CaseRule.mk 0x1fe8 0x1fe9 1 (-8),
   CaseRule.mk 0x1fea 0x1feb 1 (-112),
   CaseRule.mk 0x1fec 0x1fec 1 (-7),
   CaseRule.mk 0x1ff8 0x1ff9 1 (-128),
   CaseRule.mk 0x1ffa 0x1ffb 1 (-126),
   CaseRule.mk 0x1ffc 0x1ffc 1 (-9),
   CaseRule.mk 0x2126 0x2126 1 (-7517),
   CaseRule.mk 0x212a 0x212a 1 (-8383),
   CaseRule.mk 0x212b 0x212b 1 (-8262),
   CaseRule.mk 0x2132 0x2132 1 28,
   CaseRule.mk 0x2160 0x216f 1 16,
   CaseRule.mk 0x2183 0x2183 1 1,
   CaseRule.mk 0x24b6 0x24cf 1 26,
   CaseRule.mk 0x2c00 0x2c2f 1 48,
   CaseRule.mk 0x2c60 0x2c60 1 1,
   CaseRule.mk 0x2c62 0x2c62 1 (-10743),
   CaseRule.mk 0x2c63 0x2c63 1 (-3814),
   CaseRule.mk 0x2c64 0x2c64 1 (-10727),
   CaseRule.mk 0x2c67 0x2c6b 2 1,
   CaseRule.mk 0x2c6d 0x2c6d 1 (-10780),
   CaseRule.mk 0x2c6e 0x2c6e 1 (-10749),
   CaseRule.mk 0x2c6f 0x2c6f 1 (-10783),
   CaseRule.mk 0x2c70 0x2c70 1 (-10782),
   CaseRule.mk 0x2c72 0x2c72 1 1,
   CaseRule.mk 0x2c75 0x2c75 1 1,
   CaseRule.mk 0x2c7e 0x2c7f 1 (-10815),
   CaseRule.mk 0x2c80 0x2ce2 2 1,
   CaseRule.mk 0x2ceb 0x2ced 2 1,
   CaseRule.mk 0x2cf2 0x2cf2 1 1,
   CaseRule.mk 0xa640 0xa66c 2 1,
   CaseRule.mk 0xa680 0xa69a 2 1,
   CaseRule.mk 0xa722 0xa72e 2 1,
   CaseRule.mk 0xa732 0xa76e 2 1,
   CaseRule.mk 0xa779 0xa77b 2 1,
   CaseRule.mk 0xa77d 0xa77d 1 (-35332),
   CaseRule.mk 0xa77e 0xa786 2 1,
   CaseRule.mk 0xa78b 0xa78b 1 1,
   CaseRule.mk 0xa78d 0xa78d 1 (-42280),
   CaseRule.mk 0xa790 0xa792 2 1,
   CaseRule.mk 0xa796 0xa7a8 2 1,
   CaseRule.mk 0xa7aa 0xa7aa 1 (-42308),
   CaseRule.mk 0xa7ab 0xa7ab 1 (-42319),
   CaseRule.mk 0xa7ac 0xa7ac 1 (-42315),
   CaseRule.mk 0xa7ad 0xa7ad 1 (-42305),
   CaseRule.mk 0xa7ae 0xa7ae 1 (-42308),
   CaseRule.mk 0xa7b0 0xa7b0 1 (-42258),
   CaseRule.mk 0xa7b1 0xa7b1 1 (-42282),
   CaseRule.mk 0xa7b2 0xa7b2 1 (-42261),
   CaseRule.mk 0xa7b3 0xa7b3 1 928,
   CaseRule.mk 0xa7b4 0xa7c2 2 1,
   CaseRule.mk 0xa7c4 0xa7c4 1 (-48),
   CaseRule.mk 0xa7c5 0xa7c5 1 (-42307),
   CaseRule.mk 0xa7c6 0xa7c6 1 (-35384),
   CaseRule.mk 0xa7c7 0xa7c9 2 1,
   CaseRule.mk 0xa7d0 0xa7d0 1 1,
   CaseRule.mk 0xa7d6 0xa7d8 2 1,
   CaseRule.mk 0xa7f5 0xa7f5 1 1,
   CaseRule.mk 0xff21 0xff3a 1 32,
   CaseRule.mk 0x10400 0x10427 1 40,
   CaseRule.mk 0x104b0 0x104d3 1 40,
   CaseRule.mk 0x10570 0x1057a 1 39,
   CaseRule.mk 0x1057c 0x1058a 1 39,
   CaseRule.mk 0x1058c 0x10592 1 39,
   CaseRule.mk 0x10594 0x10595 1 39,
   CaseRule.mk 0x10c80 0x10cb2 1 64,
   CaseRule.mk 0x118a0 0x118bf 1 32,
   CaseRule.mk 0x16e40 0x16e5f 1 32,
   CaseRule.mk 0x1e900 0x1e921 1 34]

/-- Code-point ranges the Final_Sigma condition scans treat as cased
    (cased and not case-ignorable), from the Unicode character database. -/
def casedRanges : List (ℕ × ℕ) :=
  [ (0x41, 0x5a), (0x61, 0x7a), (0xaa, 0xaa), (0xb5, 0xb5), (0xba, 0xba),
   (0xc0, 0xd6), (0xd8, 0xf6), (0xf8, 0x1ba), (0x1bc, 0x1bf), (0x1c4, 0x293),
   (0x295, 0x2af), (0x370, 0x373), (0x376, 0x377), (0x37b, 0x37d),
   (0x37f, 0x37f), (0x386, 0x386), (0x388, 0x38a), (0x38c, 0x38c),
   (0x38e, 0x3a1), (0x3a3, 0x3f5), (0x3f7, 0x481), (0x48a, 0x52f),
   (0x531, 0x556), (0x560, 0x588), (0x10a0, 0x10c5), (0x10c7, 0x10c7),
   (0x10cd, 0x10cd), (0x10d0, 0x10fa), (0x10fd, 0x10ff), (0x13a0, 0x13f5),
   (0x13f8, 0x13fd), (0x1c80, 0x1c88), (0x1c90, 0x1cba), (0x1cbd, 0x1cbf),
   (0x1d00, 0x1d2b), (0x1d6b, 0x1d77), (0x1d79, 0x1d9a), (0x1e00, 0x1f15),
   (0x1f18, 0x1f1d), (0x1f20, 0x1f45), (0x1f48, 0x1f4d), (0x1f50, 0x1f57),
   (0x1f59, 0x1f59), (0x1f5b, 0x1f5b), (0x1f5d, 0x1f5d), (0x1f5f, 0x1f7d),
   (0x1f80, 0x1fb4), (0x1fb6, 0x1fbc), (0x1fbe, 0x1fbe), (0x1fc2, 0x1fc4),
   (0x1fc6, 0x1fcc), (0x1fd0, 0x1fd3), (0x1fd6, 0x1fdb), (0x1fe0, 0x1fec),
   (0x1ff2, 0x1ff4), (0x1ff6, 0x1ffc), (0x2102, 0x2102), (0x2107, 0x2107),
   (0x210a, 0x2113), (0x2115, 0x2115), (0x2119, 0x211d), (0x2124, 0x2124),
   (0x2126, 0x2126), (0x2128, 0x2128), (0x212a, 0x212d), (0x212f, 0x2134),
   (0x2139, 0x2139), (0x213c, 0x213f), (0x2145, 0x2149), (0x214e, 0x214e),
   (0x2160, 0x217f), (0x2183, 0x2184), (0x24b6, 0x24e9), (0x2c00, 0x2c7b),
   (0x2c7e, 0x2ce4), (0x2ceb, 0x2cee), (0x2cf2, 0x2cf3), (0x2d00, 0x2d25),
   (0x2d27, 0x2d27), (0x2d2d, 0x2d2d), (0xa640, 0xa66d), (0xa680, 0xa69b),
   (0xa722, 0xa76f), (0xa771, 0xa787), (0xa78b, 0xa78e), (0xa790, 0xa7ca),
   (0xa7d0, 0xa7d1), (0xa7d3, 0xa7d3), (0xa7d5, 0xa7d9), (0xa7f5, 0xa7f6),
   (0xa7fa, 0xa7fa), (0xab30, 0xab5a), (0xab60, 0xab68), (0xab70, 0xabbf),
   (0xfb00, 0xfb06), (0xfb13, 0xfb17), (0xff21, 0xff3a), (0xff41, 0xff5a),
   (0x10400, 0x1044f), (0x104b0, 0x104d3), (0x104d8, 0x104fb),
   (0x10570, 0x1057a), (0x1057c, 0x1058a), (0x1058c, 0x10592),
   (0x10594, 0x10595), (0x10597, 0x105a1), (0x105a3, 0x105b1),
   (0x105b3, 0x105b9), (0x105bb, 0x105bc), (0x10c80, 0x10cb2),
   (0x10cc0, 0x10cf2), (0x118a0, 0x118df), (0x16e40, 0x16e7f),
   (0x1d400, 0x1d454), (0x1d456, 0x1d49c), (0x1d49e, 0x1d49f),
   (0x1d4a2, 0x1d4a2), (0x1d4a5, 0x1d4a6), (0x1d4a9, 0x1d4ac),
   (0x1d4ae, 0x1d4b9), (0x1d4bb, 0x1d4bb), (0x1d4bd, 0x1d4c3),
   (0x1d4c5, 0x1d505), (0x1d507, 0x1d50a), (0x1d50d, 0x1d514),
   (0x1d516, 0x1d51c), (0x1d51e, 0x1d539), (0x1d53b, 0x1d53e),
   (0x1d540, 0x1d544), (0x1d546, 0x1d546), (0x1d54a, 0x1d550),
   (0x1d552, 0x1d6a5), (0x1d6a8, 0x1d6c0), (0x1d6c2, 0x1d6da),
   (0x1d6dc, 0x1d6fa), (0x1d6fc, 0x1d714), (0x1d716, 0x1d734),
   (0x1d736, 0x1d74e), (0x1d750, 0x1d76e), (0x1d770, 0x1d788),
   (0x1d78a, 0x1d7a8), (0x1d7aa, 0x1d7c2), (0x1d7c4, 0x1d7cb),
   (0x1df00, 0x1df09), (0x1df0b, 0x1df1e), (0x1e900, 0x1e943),
   (0x1f130, 0x1f149), (0x1f150, 0x1f169), (0x1f170, 0x1f189)]

/-- Code-point ranges the Final_Sigma condition scans skip
    (case-ignorable), from the Unicode character database. -/
def caseIgnorableRanges : List (ℕ × ℕ) :=
  [ (0x27, 0x27), (0x2e, 0x2e), (0x3a, 0x3a), (0x5e, 0x5e), (0x60, 0x60),
   (0xa8, 0xa8), (0xad, 0xad), (0xaf, 0xaf), (0xb4, 0xb4), (0xb7, 0xb8),
   (0x2b0, 0x36f), (0x374, 0x375), (0x37a, 0x37a), (0x384, 0x385),
   (0x387, 0x387), (0x483, 0x489), (0x559, 0x559), (0x55f, 0x55f),
   (0x591, 0x5bd), (0x5bf, 0x5bf), (0x5c1, 0x5c2), (0x5c4, 0x5c5),
   (0x5c7, 0x5c7), (0x5f4, 0x5f4), (0x600, 0x605), (0x610, 0x61a),
   (0x61c, 0x61c), (0x640, 0x640), (0x64b, 0x65f), (0x670, 0x670),
   (0x6d6, 0x6dd), (0x6df, 0x6e8), (0x6ea, 0x6ed), (0x70f, 0x70f),
   (0x711, 0x711), (0x730, 0x74a), (0x7a6, 0x7b0), (0x7eb, 0x7f5),
   (0x7fa, 0x7fa), (0x7fd, 0x7fd), (0x816, 0x82d), (0x859, 0x85b),
   (0x888, 0x888), (0x890, 0x891), (0x898, 0x89f), (0x8c9, 0x902),
   (0x93a, 0x93a), (0x93c, 0x93c), (0x941, 0x948), (0x94d, 0x94d),
   (0x951, 0x957), (0x962, 0x963), (0x971, 0x971), (0x981, 0x981),
   (0x9bc, 0x9bc), (0x9c1, 0x9c4), (0x9cd, 0x9cd), (0x9e2, 0x9e3),
   (0x9fe, 0x9fe), (0xa01, 0xa02), (0xa3c, 0xa3c), (0xa41, 0xa42),
   (0xa47, 0xa48), (0xa4b, 0xa4d), (0xa51, 0xa51), (0xa70, 0xa71),
   (0xa75, 0xa75), (0xa81, 0xa82), (0xabc, 0xabc), (0xac1, 0xac5),
   (0xac7, 0xac8), (0xacd, 0xacd), (0xae2, 0xae3), (0xafa, 0xaff),
   (0xb01, 0xb01), (0xb3c, 0xb3c), (0xb3f, 0xb3f), (0xb41, 0xb44),
   (0xb4d, 0xb4d), (0xb55, 0xb56), (0xb62, 0xb63), (0xb82, 0xb82),
   (0xbc0, 0xbc0), (0xbcd, 0xbcd), (0xc00, 0xc00), (0xc04, 0xc04),
   (0xc3c, 0xc3c), (0xc3e, 0xc40), (0xc46, 0xc48), (0xc4a, 0xc4d),
   (0xc55, 0xc56), (0xc62, 0xc63), (0xc81, 0xc81), (0xcbc, 0xcbc),
   (0xcbf, 0xcbf), (0xcc6, 0xcc6), (0xccc, 0xccd), (0xce2, 0xce3),
   (0xd00, 0xd01), (0xd3b, 0xd3c), (0xd41, 0xd44), (0xd4d, 0xd4d),
   (0xd62, 0xd63), (0xd81, 0xd81), (0xdca, 0xdca), (0xdd2, 0xdd4),
   (0xdd6, 0xdd6), (0xe31, 0xe31), (0xe34, 0xe3a), (0xe46, 0xe4e),
   (0xeb1, 0xeb1), (0xeb4, 0xebc), (0xec6, 0xec6), (0xec8, 0xecd),
   (0xf18, 0xf19), (0xf35, 0xf35), (0xf37, 0xf37), (0xf39, 0xf39),
   (0xf71, 0xf7e), (0xf80, 0xf84), (0xf86, 0xf87), (0xf8d, 0xf97),
   (0xf99, 0xfbc), (0xfc6, 0xfc6), (0x102d, 0x1030), (0x1032, 0x1037),
   (0x1039, 0x103a), (0x103d, 0x103e), (0x1058, 0x1059), (0x105e, 0x1060),
   (0x1071, 0x1074), (0x1082, 0x1082), (0x1085, 0x1086), (0x108d, 0x108d),
   (0x109d, 0x109d), (0x10fc, 0x10fc), (0x135d, 0x135f), (0x1712, 0x1714),
   (0x1732, 0x1733), (0x1752, 0x1753), (0x1772, 0x1773), (0x17b4, 0x17b5),
   (0x17b7, 0x17bd), (0x17c6, 0x17c6), (0x17c9, 0x17d3), (0x17d7, 0x17d7),
   (0x17dd, 0x17dd), (0x180b, 0x180f), (0x1843, 0x1843), (0x1885, 0x1886),
   (0x18a9, 0x18a9), (0x1920, 0x1922), (0x1927, 0x1928), (0x1932, 0x1932),
   (0x1939, 0x193b), (0x1a17, 0x1a18), (0x1a1b, 0x1a1b), (0x1a56, 0x1a56),
   (0x1a58, 0x1a5e), (0x1a60, 0x1a60), (0x1a62, 0x1a62), (0x1a65, 0x1a6c),
   (0x1a73, 0x1a7c), (0x1a7f, 0x1a7f), (0x1aa7, 0x1aa7), (0x1ab0, 0x1ace),
   (0x1b00, 0x1b03), (0x1b34, 0x1b34), (0x1b36, 0x1b3a), (0x1b3c, 0x1b3c),
   (0x1b42, 0x1b42), (0x1b6b, 0x1b73), (0x1b80, 0x1b81), (0x1ba2, 0x1ba5),
   (0x1ba8, 0x1ba9), (0x1bab, 0x1bad), (0x1be6, 0x1be6), (0x1be8, 0x1be9),
   (0x1bed, 0x1bed), (0x1bef, 0x1bf1), (0x1c2c, 0x1c33), (0x1c36, 0x1c37),
   (0x1c78, 0x1c7d), (0x1cd0, 0x1cd2), (0x1cd4, 0x1ce0), (0x1ce2, 0x1ce8),
   (0x1ced, 0x1ced), (0x1cf4, 0x1cf4), (0x1cf8, 0x1cf9), (0x1d2c, 0x1d6a),
   (0x1d78, 0x1d78), (0x1d9b, 0x1dff), (0x1fbd, 0x1fbd), (0x1fbf, 0x1fc1),
   (0x1fcd, 0x1fcf), (0x1fdd, 0x1fdf), (0x1fed, 0x1fef), (0x1ffd, 0x1ffe),
   (0x200b, 0x200f), (0x2018, 0x2019), (0x2024, 0x2024), (0x2027, 0x2027),
   (0x202a, 0x202e), (0x2060, 0x2064), (0x2066, 0x206f), (0x2071, 0x2071),
   (0x207f, 0x207f), (0x2090, 0x209c), (0x20d0, 0x20f0), (0x2c7c, 0x2c7d),
   (0x2cef, 0x2cf1), (0x2d6f, 0x2d6f), (0x2d7f, 0x2d7f), (0x2de0, 0x2dff),
   (0x2e2f, 0x2e2f), (0x3005, 0x3005), (0x302a, 0x302d), (0x3031, 0x3035),
   (0x303b, 0x303b), (0x3099, 0x309e), (0x30fc, 0x30fe), (0xa015, 0xa015),
   (0xa4f8, 0xa4fd), (0xa60c, 0xa60c), (0xa66f, 0xa672), (0xa674, 0xa67d),
   (0xa67f, 0xa67f), (0xa69c, 0xa69f), (0xa6f0, 0xa6f1), (0xa700, 0xa721),
   (0xa770, 0xa770), (0xa788, 0xa78a), (0xa7f2, 0xa7f4), (0xa7f8, 0xa7f9),
   (0xa802, 0xa802), (0xa806, 0xa806), (0xa80b, 0xa80b), (0xa825, 0xa826),
   (0xa82c, 0xa82c), (0xa8c4, 0xa8c5), (0xa8e0, 0xa8f1), (0xa8ff, 0xa8ff),
   (0xa926, 0xa92d), (0xa947, 0xa951), (0xa980, 0xa982), (0xa9b3, 0xa9b3),
   (0xa9b6, 0xa9b9), (0xa9bc, 0xa9bd), (0xa9cf, 0xa9cf), (0xa9e5, 0xa9e6),
   (0xaa29, 0xaa2e), (0xaa31, 0xaa32), (0xaa35, 0xaa36), (0xaa43, 0xaa43),
   (0xaa4c, 0xaa4c), (0xaa70, 0xaa70), (0xaa7c, 0xaa7c), (0xaab0, 0xaab0),
   (0xaab2, 0xaab4), (0xaab7, 0xaab8), (0xaabe, 0xaabf), (0xaac1, 0xaac1),
   (0xaadd, 0xaadd), (0xaaec, 0xaaed), (0xaaf3, 0xaaf4), (0xaaf6, 0xaaf6),
   (0xab5b, 0xab5f), (0xab69, 0xab6b), (0xabe5, 0xabe5), (0xabe8, 0xabe8),
   (0xabed, 0xabed), (0xfb1e, 0xfb1e), (0xfbb2, 0xfbc2), (0xfe00, 0xfe0f),
   (0xfe13, 0xfe13), (0xfe20, 0xfe2f), (0xfe52, 0xfe52), (0xfe55, 0xfe55),
   (0xfeff, 0xfeff), (0xff07, 0xff07), (0xff0e, 0xff0e), (0xff1a, 0xff1a),
   (0xff3e, 0xff3e), (0xff40, 0xff40), (0xff70, 0xff70), (0xff9e, 0xff9f),
   (0xffe3, 0xffe3), (0xfff9, 0xfffb), (0x101fd, 0x101fd), (0x102e0, 0x102e0),
   (0x10376, 0x1037a), (0x10780, 0x10785), (0x10787, 0x107b0),
   (0x107b2, 0x107ba), (0x10a01, 0x10a03), (0x10a05, 0x10a06),
   (0x10a0c, 0x10a0f), (0x10a38, 0x10a3a), (0x10a3f, 0x10a3f),
   (0x10ae5, 0x10ae6), (0x10d24, 0x10d27), (0x10eab, 0x10eac),
   (0x10f46, 0x10f50), (0x10f82, 0x10f85), (0x11001, 0x11001),
   (0x11038, 0x11046), (0x11070, 0x11070), (0x11073, 0x11074),
   (0x1107f, 0x11081), (0x110b3, 0x110b6), (0x110b9, 0x110ba),
   (0x110bd, 0x110bd), (0x110c2, 0x110c2), (0x110cd, 0x110cd),
   (0x11100, 0x11102), (0x11127, 0x1112b), (0x1112d, 0x11134),
   (0x11173, 0x11173), (0x11180, 0x11181), (0x111b6, 0x111be),
   (0x111c9, 0x111cc), (0x111cf, 0x111cf), (0x1122f, 0x11231),
   (0x11234, 0x11234), (0x11236, 0x11237), (0x1123e, 0x1123e),
   (0x112df, 0x112df), (0x112e3, 0x112ea), (0x11300, 0x11301),
   (0x1133b, 0x1133c), (0x11340, 0x11340), (0x11366, 0x1136c),
   (0x11370, 0x11374), (0x11438, 0x1143f), (0x11442, 0x11444),
   (0x11446, 0x11446), (0x1145e, 0x1145e), (0x114b3, 0x114b8),
   (0x114ba, 0x114ba), (0x114bf, 0x114c0), (0x114c2, 0x114c3),
   (0x115b2, 0x115b5), (0x115bc, 0x115bd), (0x115bf, 0x115c0),
   (0x115dc, 0x115dd), (0x11633, 0x1163a), (0x1163d, 0x1163d),
   (0x1163f, 0x11640), (0x116ab, 0x116ab), (0x116ad, 0x116ad),
   (0x116b0, 0x116b5), (0x116b7, 0x116b7), (0x1171d, 0x1171f),
   (0x11722, 0x11725), (0x11727, 0x1172b), (0x1182f, 0x11837),
   (0x11839, 0x1183a), (0x1193b, 0x1193c), (0x1193e, 0x1193e),
   (0x11943, 0x11943), (0x119d4, 0x119d7), (0x119da, 0x119db),
   (0x119e0, 0x119e0), (0x11a01, 0x11a0a), (0x11a33, 0x11a38),
   (0x11a3b, 0x11a3e), (0x11a47, 0x11a47), (0x11a51, 0x11a56),
   (0x11a59, 0x11a5b), (0x11a8a, 0x11a96), (0x11a98, 0x11a99),
   (0x11c30, 0x11c36), (0x11c38, 0x11c3d), (0x11c3f, 0x11c3f),
   (0x11c92, 0x11ca7), (0x11caa, 0x11cb0), (0x11cb2, 0x11cb3),
   (0x11cb5, 0x11cb6), (0x11d31, 0x11d36), (0x11d3a, 0x11d3a),
   (0x11d3c, 0x11d3d), (0x11d3f, 0x11d45), (0x11d47, 0x11d47),
   (0x11d90, 0x11d91), (0x11d95, 0x11d95), (0x11d97, 0x11d97),
   (0x11ef3, 0x11ef4), (0x13430, 0x13438), (0x16af0, 0x16af4),
   (0x16b30, 0x16b36), (0x16b40, 0x16b43), (0x16f4f, 0x16f4f),
   (0x16f8f, 0x16f9f), (0x16fe0, 0x16fe1), (0x16fe3, 0x16fe4),
   (0x1aff0, 0x1aff3), (0x1aff5, 0x1affb), (0x1affd, 0x1affe),
   (0x1bc9d, 0x1bc9e), (0x1bca0, 0x1bca3), (0x1cf00, 0x1cf2d),
   (0x1cf30, 0x1cf46), (0x1d167, 0x1d169), (0x1d173, 0x1d182),
   (0x1d185, 0x1d18b), (0x1d1aa, 0x1d1ad), (0x1d242, 0x1d244),
   (0x1da00, 0x1da36), (0x1da3b, 0x1da6c), (0x1da75, 0x1da75),
   (0x1da84, 0x1da84), (0x1da9b, 0x1da9f), (0x1daa1, 0x1daaf),
   (0x1e000, 0x1e006), (0x1e008, 0x1e018), (0x1e01b, 0x1e021),
   (0x1e023, 0x1e024), (0x1e026, 0x1e02a), (0x1e130, 0x1e13d),
   (0x1e2ae, 0x1e2ae), (0x1e2ec, 0x1e2ef), (0x1e8d0, 0x1e8d6),
   (0x1e944, 0x1e94b), (0x1f3fb, 0x1f3ff), (0xe0001, 0xe0001),
   (0xe0020, 0xe007f), (0xe0100, 0xe01ef)]

/-- Range-list membership. -/
def inCaseRanges (n : ℕ) (rs : List (ℕ × ℕ)) : Bool :=
  rs.any (fun r => decide (r.1 ≤ n) && decide (n ≤ r.2))

/-- Single-character lowercase mapping through the compressed rules. -/
def lowerMapSimple (n : ℕ) : ℕ :=
  match lowerRules.find? (fun r =>
    decide (r.lo ≤ n) && decide (n ≤ r.hi) && decide ((n - r.lo) % r.step = 0)) with
  | some r => ((n : ℤ) + r.delta).toNat
  | none => n

/-- Full lowercase mapping of one character apart from U+03A3: U+0130
    (Latin capital I with dot above) expands to two characters, every
    other code point maps through the rules. -/
def charLowerFull (c : Char) : List Char :=
  if c.toNat = 0x130 then [Char.ofNat 0x69, Char.ofNat 0x307]
  else [Char.ofNat (lowerMapSimple c.toNat)]

/-- Whether a character counts as cased for the Final_Sigma scans. -/
def isCasedChar (c : Char) : Bool :=
  inCaseRanges c.toNat casedRanges

/-- Whether a character is skipped by the Final_Sigma scans. -/
def isCaseIgnorableChar (c : Char) : Bool :=
  inCaseRanges c.toNat caseIgnorableRanges

/-- Forward half of the Final_Sigma condition: skipping case-ignorable
    characters, is the next character cased? -/
def followedByCased : List Char → Bool
  | [] => false
  | c :: cs => if isCaseIgnorableChar c then followedByCased cs else isCasedChar c

/-- The character loop of toLowerCase.  prevCased records whether scanning
    backward from the current position over case-ignorable characters
    reaches a cased one; a capital sigma maps to the final form exactly
    when that holds and no cased character follows (Final_Sigma), else to
    the medial form. -/
def lowerGo (prevCased : Bool) : List Char → List Char
  | [] => []
  | c :: cs =>
    let mapped :=
      if c.toNat = 0x3a3 then
        if prevCased && !(followedByCased cs) then [Char.ofNat 0x3c2]
        else [Char.ofNat 0x3c3]
      else charLowerFull c
    let prevNext := if isCaseIgnorableChar c then prevCased else isCasedChar c
    mapped ++ lowerGo prevNext cs

/-- JavaScript String.prototype.toLowerCase: the locale-independent
    Unicode default case conversion (full lowercase mappings plus the
    Final_Sigma context rule). -/
def jsToLower (s : String) : String :=
  String.mk (lowerGo false s.data)

/-- saveRecent of src/App.tsx: drop entries equal to the new name under
    lower-cased comparison, put the new name in front, keep the first 6. -/
def saveRecent (recent : List String) (name : String) : List String :=
  (name :: recent.filter (fun c => jsToLower c ≠ jsToLower name)).take 6

/-- The component state owned by the search flow: query text, resolved
    city, current conditions, summarized forecast, loading flag, error
    message, recent cities. -/
structure SearchState where
  q : String
  city : Option Geo
  now : Option WeatherNow
  fc : Option (List ForecastItem)
  loading : Bool
  error : Option String
  recent : List String
deriving DecidableEq, Repr

/-- The network requests runSearch can issue, in issue order. -/
inductive NetCall where
  | geocodeCall
  | currentCall
  | forecastCall
deriving DecidableEq, Repr

/-- The error message of the missing-credential short circuit. -/
def missingKeyMsg : String :=
  "Missing API key. Set VITE_OPENWEATHER_API_KEY environment variable."

/-- The fallback of the catch block: e.message is falsy (empty) for an
    exotic thrown value, so a generic message replaces it. -/
def jsMessageOr (msg : String) : String :=
  if msg = "" then "Something went wrong" else msg

/-- The body of the catch block of runSearch followed by the finally
    block: record the message (with the falsy-message fallback), clear
    current conditions and forecast, stop loading.  The resolved city is
    not touched there. -/
def applyCatch (st : SearchState) (msg : String) : SearchState :=
  { st with
    error := some (jsMessageOr msg)
    now := none
    fc := none
    loading := false }

/-- Promise.all over the two weather fetches: succeeds with the pair when
    both succeed, otherwise rejects.  When both reject, JavaScript reports
    whichever settled first in real time; the model reports the
    current-conditions error, which is the only case any claim observes
    only through its presence. -/
def promiseAll (cur : Except String WeatherNow) (fcst : Except String ForecastRes) :
    Except String (WeatherNow × ForecastRes) :=
  match cur, fcst with
  | .ok w, .ok f => .ok (w, f)
  | .error e, _ => .error e
  | _, .error e => .error e

/-- runSearch of src/App.tsx as a state transformer.  The network is
    abstracted by three oracles: the geocoder outcome (error = rejected
    fetch or non-ok status; ok none = empty candidate list; ok some =
    first match) and the two weather-fetch outcomes.  The returned list
    records which requests were issued.  The pickDaily TypeError, were it
    to fire, is caught by the same catch block; its platform message is
    modelled by a fixed string no claim inspects. -/
def runSearch (st : SearchState) (cityName : String) (hasKey : Bool)
    (geoRes : Except String (Option Geo))
    (curRes : Except String WeatherNow)
    (fcRes : Except String ForecastRes) : SearchState × List NetCall :=
  if (jsTrim cityName.data).isEmpty then (st, [])
  else if ¬ hasKey then ({ st with error := some missingKeyMsg }, [])
  else
    let st1 : SearchState := { st with loading := true, error := none }
    match geoRes with
    | .error e => (applyCatch st1 e, [.geocodeCall])
    | .ok none => (applyCatch st1 "City not found", [.geocodeCall])
    | .ok (some g) =>
      let st2 : SearchState := { st1 with city := some g }
      let calls : List NetCall := [.geocodeCall, .currentCall, .forecastCall]
      match promiseAll curRes fcRes with
      | .error e => (applyCatch st2 e, calls)
      | .ok (w, f) =>
        let st3 : SearchState := { st2 with now := some w }
        match pickDaily f.list with
        | .error _ => (applyCatch st3 "TypeError", calls)
        | .ok daily =>
          ({ st3 with fc := some daily,
                      recent := saveRecent st3.recent g.name,
                      loading := false }, calls)

/-! ## The persisted recent-cities loader -/

/-- JSON values as JSON.parse returns them; a numeric literal keeps its
    lexeme, since the loader never computes with parsed numbers. -/
inductive Json where
  | jnull
  | jbool (b : Bool)
  | jnum (lexeme : String)
  | jstr (s : String)
  | jarr (elems : List Json)
  | jobj (fields : List (String × Json))

/-- JSON insignificant whitespace. -/
def jsonWs (c : Char) : Bool :=
  c = ' ' || c = '\t' || c = '\n' || c = '\r'

/-- Skip insignificant whitespace. -/
def skipWs (cs : List Char) : List Char :=
  cs.dropWhile jsonWs

/-- Hexadecimal digit value. -/
def hexVal (c : Char) : Option ℕ :=
  if '0' ≤ c ∧ c ≤ '9' then some (c.toNat - 48)
  else if 'a' ≤ c ∧ c ≤ 'f' then some (c.toNat - 87)
  else if 'A' ≤ c ∧ c ≤ 'F' then some (c.toNat - 70)
  else none

/-- Body of a JSON string literal after the opening quote, accumulating
    decoded characters.  A \uXXXX escape of a surrogate code unit, which
    JavaScript would keep as a lone UTF-16 unit, is decoded to the
    replacement character; no claim stores such escapes. -/
def parseStrBody : List Char → List Char → Option (String × List Char)
  | [], _ => none
  | '"' :: rest, acc => some (String.mk acc.reverse, rest)
  | '\\' :: esc, acc =>
    match esc with
    | '"' :: rest => parseStrBody rest ('"' :: acc)
    | '\\' :: rest => parseStrBody rest ('\\' :: acc)
    | '/' :: rest => parseStrBody rest ('/' :: acc)
    | 'b' :: rest => parseStrBody rest ('\x08' :: acc)
    | 'f' :: rest => parseStrBody rest ('\x0c' :: acc)
    | 'n' :: rest => parseStrBody rest ('\n' :: acc)
    | 'r' :: rest => parseStrBody rest ('\r' :: acc)
    | 't' :: rest => parseStrBody rest ('\t' :: acc)
    | 'u' :: h1 :: h2 :: h3 :: h4 :: rest =>
      match hexVal h1, hexVal h2, hexVal h3, hexVal h4 with
      | some a, some b, some c, some d =>
        parseStrBody rest (Char.ofNat (((a * 16 + b) * 16 + c) * 16 + d) :: acc)
      | _, _, _, _ => none
    | _ => none
  | c :: rest, acc =>
    if c.toNat < 0x20 then none else parseStrBody rest (c :: acc)

/-- Lexeme of a JSON number literal: minus sign, integer part without a
    leading zero surplus, optional fraction, optional exponent. -/
def parseNumLex (cs : List Char) : Option (List Char × List Char) :=
  let afterMinus : List Char × List Char :=
    match cs with
    | '-' :: r => (['-'], r)
    | r => ([], r)
  let intDigits := afterMinus.2.takeWhile Char.isDigit
  let r1 := afterMinus.2.dropWhile Char.isDigit
  if intDigits.isEmpty then none
  else if intDigits.length > 1 ∧ intDigits.headD '0' = '0' then none
  else
    let withInt := afterMinus.1 ++ intDigits
    let fracStep : Option (List Char × List Char) :=
      match r1 with
      | '.' :: fr =>
        let fd := fr.takeWhile Char.isDigit
        if fd.isEmpty then none
        else some (withInt ++ '.' :: fd, fr.dropWhile Char.isDigit)
      | _ => some (withInt, r1)
    match fracStep with
    | none => none
    | some (lex1, r2) =>
      match r2 with
      | e :: er =>
        if e = 'e' ∨ e = 'E' then
          let signPart : List Char × List Char :=
            match er with
            | '+' :: sr => (['+'], sr)
            | '-' :: sr => (['-'], sr)
            | sr => ([], sr)
          let ed := signPart.2.takeWhile Char.isDigit
          if ed.isEmpty then none
          else some (lex1 ++ e :: signPart.1 ++ ed, signPart.2.dropWhile Char.isDigit)
        else some (lex1, r2)
      | [] => some (lex1, r2)

mutual

/-- Recursive-descent JSON value parser; the fuel only bounds nesting and
    is chosen large enough at the top level. -/
def parseVal : ℕ → List Char → Option (Json × List Char)
  | 0, _ => none
  | fuel + 1, cs =>
    match skipWs cs with
    | 'n' :: 'u' :: 'l' :: 'l' :: rest => some (.jnull, rest)
    | 't' :: 'r' :: 'u' :: 'e' :: rest => some (.jbool true, rest)
    | 'f' :: 'a' :: 'l' :: 's' :: 'e' :: rest => some (.jbool false, rest)
    | '"' :: rest =>
      match parseStrBody rest [] with
      | some (s, r) => some (.jstr s, r)
      | none => none
    | '[' :: rest =>
      match skipWs rest with
      | ']' :: r2 => some (.jarr [], r2)
      | _ =>
        match parseElems fuel rest with
        | some (es, r2) => some (.jarr es, r2)
        | none => none
    | '{' :: rest =>
      match skipWs rest with
      | '}' :: r2 => some (.jobj [], r2)
      | _ =>
        match parseFields fuel rest with
        | some (fs, r2) => some (.jobj fs, r2)
        | none => none
    | other =>
      match parseNumLex other with
      | some (lex, r) => some (.jnum (String.mk lex), r)
      | none => none

/-- Comma-separated array elements up to the closing bracket. -/
def parseElems : ℕ → List Char → Option (List Json × List Char)
  | 0, _ => none
  | fuel + 1, cs =>
    match parseVal fuel cs with
    | none => none
    | some (v, r) =>
      match skipWs r with
      | ',' :: r2 =>
        match parseElems fuel r2 with
        | some (vs, r3) => some (v :: vs, r3)
        | none => none
      | ']' :: r2 => some ([v], r2)
      | _ => none

/-- Comma-separated object members up to the closing brace. -/
def parseFields : ℕ → List Char → Option (List (String × Json) × List Char)
  | 0, _ => none
  | fuel + 1, cs =>
    match skipWs cs with
    | '"' :: rest =>
      match parseStrBody rest [] with
      | none => none
      | some (k, r) =>
        match skipWs r with
        | ':' :: r2 =>
          match parseVal fuel r2 with
          | none => none
          | some (v, r3) =>
            match skipWs r3 with
            | ',' :: r4 =>
              match parseFields fuel r4 with
              | some (fs, r5) => some ((k, v) :: fs, r5)
              | none => none
            | '}' :: r4 => some ([(k, v)], r4)
            | _ => none
        | _ => none
    | _ => none

end

/-- JSON.parse as the loader uses it: parse one value, allow surrounding
    whitespace, reject trailing input; none models the thrown SyntaxError. -/
def jsonParse (s : String) : Option Json :=
  match parseVal (2 * s.data.length + 2) s.data with
  | some (v, r) => if (skipWs r).isEmpty then some v else none
  | none => none

/-- The recent useState initializer of src/App.tsx:
    JSON.parse(localStorage.getItem(RECENT_KEY) || chr(39)[]chr(39)) inside
    try/catch.  getItem returning null (modelled by none) or an empty
    string is replaced by the two-character text for an empty array before
    parsing; a parse failure is caught and yields the empty array. -/
def loadRecent (stored : Option String) : Json :=
  let s := match stored with
    | none => "[]"
    | some s => if s = "" then "[]" else s
  match jsonParse s with
  | some v => v
  | none => .jarr []

/-- Spec-side predicate: the loaded value is a JSON array whose elements
    are all strings (the type the component declares for the recent
    list). -/
def isStringList : Json → Bool
  | .jarr xs => xs.all (fun x => match x with | .jstr _ => true | _ => false)
  | _ => false

/-- Valid Unicode scalar values: what a Char can hold. -/
def validScalar (n : ℕ) : Prop :=
  n < 0xd800 ∨ (0xdfff < n ∧ n < 0x110000)

/-- Well-formed sample: its local-time component exists and its sliced hour
    field is numeric, so the selection loop sees a real distance. -/
def wfItem (it : ForecastItem) : Prop :=
  ∃ q, hourDiffE it = .ok (some q)

/-- Total extractor for the (scaled) noon distance of a well-formed
    sample. -/
def hourDiffD (it : ForecastItem) : ℤ :=
  match hourDiffE it with
  | .ok (some q) => q
  | _ => 0

/-- The per-day relation collectBests establishes between a day key and the
    pushed best item. -/
def groupSel (groups : Groups) (day : List Char) (r : ForecastItem) : Prop :=
  ∃ f items bd, lookupG groups day = some (f, items) ∧
    selGo f none (f :: items) = .ok (r, bd)

/-! ## Concrete data for counterexamples and witnesses -/

/-- Inert payload for samples. -/
def zeroFMain : FMain := { temp := 0, feels_like := 0, humidity := 0 }

/-- Inert payload for samples. -/
def zeroWind : Wind := { speed := 0, deg := 0 }

/-- A forecast sample with the given timestamp and local-time text. -/
def sampleItem (t : ℤ) (txt : String) : ForecastItem :=
  { dt := t, dt_txt := txt, main := zeroFMain, weather := [], wind := zeroWind }

/-- A 3-hourly feed covering one full day (hours 3, 9, 15, 21) and a
    second day (hours 0 and 12). -/
def sampleFeed : List ForecastItem :=
  [sampleItem 1 "2024-01-15 03:00:00", sampleItem 2 "2024-01-15 09:00:00",
   sampleItem 3 "2024-01-15 15:00:00", sampleItem 4 "2024-01-15 21:00:00",
   sampleItem 5 "2024-01-16 00:00:00", sampleItem 6 "2024-01-16 12:00:00"]

/-- The hour-9 sample of the first day of sampleFeed. -/
def noonSample : ForecastItem := sampleItem 2 "2024-01-15 09:00:00"

/-- The summarizer's output on sampleFeed. -/
def sampleOut : List ForecastItem :=
  noonSample :: [sampleItem 6 "2024-01-16 12:00:00"]

/-- A previously resolved location. -/
def gOld : Geo :=
  { name := "Oldtown", lat := 1, lon := 2, country := "AA", state := none }

/-- Previously displayed current conditions. -/
def wOld : WeatherNow :=
  { name := "Oldtown", dt := 0,
    sys := { country := "AA", sunrise := 0, sunset := 0 }, weather := [],
    main := { temp := 0, feels_like := 0, humidity := 0, pressure := 0,
              temp_min := 0, temp_max := 0 },
    wind := zeroWind, visibility := 0 }

/-- A state holding a fully displayed previous search. -/
def stOld : SearchState :=
  { q := "Oldtown", city := some gOld, now := some wOld, fc := some [],
    loading := false, error := none, recent := ["london"] }

/-- A freshly resolved location. -/
def gParis : Geo :=
  { name := "Paris", lat := 48, lon := 2, country := "FR", state := none }

/-- A resolved location whose display name needs a non-ASCII case
    mapping. -/
def gZurich : Geo :=
  { name := "z\u00fcrich", lat := 47, lon := 8, country := "CH", state := none }

/-- A state whose recent list holds the upper-cased variant of that
    name. -/
def stZurich : SearchState :=
  { stOld with recent := ["Z\u00dcRICH"] }

/-- Current conditions for the fresh location. -/
def wParis : WeatherNow :=
  { name := "Paris", dt := 1,
    sys := { country := "FR", sunrise := 0, sunset := 0 }, weather := [],
    main := { temp := 0, feels_like := 0, humidity := 0, pressure := 0,
              temp_min := 0, temp_max := 0 },
    wind := zeroWind, visibility := 0 }

/-- An empty forecast payload. -/
def fEmpty : ForecastRes :=
  { list := [], city := { name := "Paris", country := "FR", timezone := 0 } }

/-- A fixed transport failure. -/
def curErr : Except String WeatherNow := .error "Weather data failed to load"

/-- A fixed transport failure. -/
def fcErr : Except String ForecastRes := .error "Forecast data failed to load"

end WeatherDash

namespace WeatherDash

theorem char_toNat_inj {a b : Char} (h : a.toNat = b.toNat) : a = b :=
  Char.eq_of_val_eq (UInt32.eq_of_toBitVec_eq (BitVec.eq_of_toNat_eq h))

theorem char_validScalar (c : Char) : validScalar c.toNat := by
  have h := c.valid
  unfold UInt32.isValidChar Nat.isValidChar at h
  exact h

theorem encU16_ne_nil (n : ℕ) : encU16 n ≠ [] := by
  unfold encU16
  split <;> simp

theorem encList_cons (n : ℕ) (l : List ℕ) :
    encList (n :: l) = encU16 n ++ encList l := rfl

theorem encList_inj : ∀ l1 l2 : List ℕ, (∀ n ∈ l1, validScalar n) →
    (∀ n ∈ l2, validScalar n) → encList l1 = encList l2 → l1 = l2 := by
  intro l1
  induction l1 with
  | nil =>
    intro l2 _ _ h
    cases l2 with
    | nil => rfl
    | cons b bs =>
      rw [encList_cons] at h
      rcases List.append_eq_nil.mp h.symm with ⟨h1, _⟩
      exact absurd h1 (encU16_ne_nil b)
  | cons a as ih =>
    intro l2 h1 h2 h
    cases l2 with
    | nil =>
      rw [encList_cons] at h
      rcases List.append_eq_nil.mp h with ⟨hh, _⟩
      exact absurd hh (encU16_ne_nil a)
    | cons b bs =>
      rw [encList_cons, encList_cons] at h
      have ha := h1 a (List.mem_cons_self a as)
      have hb := h2 b (List.mem_cons_self b bs)
      have has : ∀ n ∈ as, validScalar n := fun n hn => h1 n (List.mem_cons_of_mem _ hn)
      have hbs : ∀ n ∈ bs, validScalar n := fun n hn => h2 n (List.mem_cons_of_mem _ hn)
      unfold encU16 at h
      by_cases c1 : a < 0x10000 <;> by_cases c2 : b < 0x10000 <;>
        simp only [c1, if_true, if_false, c2, List.cons_append, List.nil_append,
          List.cons.injEq, if_pos, if_neg, not_false_iff] at h
      · exact by rw [h.1, ih bs has hbs h.2]
      · exfalso
        have hq : (b - 0x10000) / 0x400 < 0x400 := by
          have hlt : b - 0x10000 < 0x400 * 0x400 := by
            rcases hb with hb | ⟨_, hb2⟩ <;> omega
          exact Nat.div_lt_of_lt_mul hlt
        rcases ha with ha | ⟨ha1, _⟩ <;> omega
      · exfalso
        have hq : (a - 0x10000) / 0x400 < 0x400 := by
          have hlt : a - 0x10000 < 0x400 * 0x400 := by
            rcases ha with ha | ⟨_, ha2⟩ <;> omega
          exact Nat.div_lt_of_lt_mul hlt
        rcases hb with hb | ⟨hb1, _⟩ <;> omega
      · have hda := Nat.div_add_mod (a - 0x10000) 0x400
        have hdb := Nat.div_add_mod (b - 0x10000) 0x400
        have hab : a = b := by omega
        exact by rw [hab, ih bs has hbs h.2.2]

theorem strU16_inj {cs1 cs2 : List Char} (h : strU16 cs1 = strU16 cs2) :
    cs1 = cs2 := by
  have hm : cs1.map Char.toNat = cs2.map Char.toNat := by
    apply encList_inj
    · intro n hn
      rcases List.mem_map.mp hn with ⟨c, _, rfl⟩
      exact char_validScalar c
    · intro n hn
      rcases List.mem_map.mp hn with ⟨c, _, rfl⟩
      exact char_validScalar c
    · exact h
  exact List.map_injective_iff.mpr (fun a b hab => char_toNat_inj hab) hm

theorem ltU16_irrefl : ∀ as : List ℕ, ltU16 as as = false := by
  intro as
  induction as with
  | nil => rfl
  | cons a l ih => simp [ltU16, ih]

theorem ltU16_conn : ∀ as bs : List ℕ, ltU16 as bs = false →
    ltU16 bs as = false → as = bs := by
  intro as
  induction as with
  | nil =>
    intro bs h1 _
    cases bs with
    | nil => rfl
    | cons b l => simp [ltU16] at h1
  | cons a l ih =>
    intro as h1 h2
    cases as with
    | nil => simp [ltU16] at h2
    | cons b m =>
      rcases Nat.lt_trichotomy a b with hlt | heq | hgt
      · rw [show ltU16 (a :: l) (b :: m) = true by simp [ltU16, hlt]] at h1
        exact absurd h1 (by simp)
      · subst heq
        rw [show ltU16 (a :: l) (a :: m) = ltU16 l m by simp [ltU16]] at h1
        rw [show ltU16 (a :: m) (a :: l) = ltU16 m l by simp [ltU16]] at h2
        rw [ih m h1 h2]
      · rw [show ltU16 (b :: m) (a :: l) = true by simp [ltU16, hgt]] at h2
        exact absurd h2 (by simp)

theorem ltU16_trans : ∀ as bs cs : List ℕ, ltU16 as bs = true →
    ltU16 bs cs = true → ltU16 as cs = true := by
  intro as
  induction as with
  | nil =>
    intro bs cs h1 h2
    cases bs with
    | nil => simp [ltU16] at h1
    | cons b m =>
      cases cs with
      | nil => simp [ltU16] at h2
      | cons c p => simp [ltU16]
  | cons a l ih =>
    intro bs cs h1 h2
    cases bs with
    | nil => simp [ltU16] at h1
    | cons b m =>
      cases cs with
      | nil => simp [ltU16] at h2
      | cons c p =>
        rcases Nat.lt_trichotomy a b with hab | hab | hab
        · rcases Nat.lt_trichotomy b c with hbc | hbc | hbc
          · simp [ltU16, show a < c by omega]
          · subst hbc
            simp [ltU16, hab]
          · rw [show ltU16 (b :: m) (c :: p) = false by
              simp [ltU16, show ¬ b < c by omega, show c < b from hbc]] at h2
            exact absurd h2 (by simp)
        · subst hab
          rw [show ltU16 (a :: l) (a :: m) = ltU16 l m by simp [ltU16]] at h1
          rcases Nat.lt_trichotomy a c with hac | hac | hac
          · simp [ltU16, hac]
          · subst hac
            rw [show ltU16 (a :: m) (a :: p) = ltU16 m p by simp [ltU16]] at h2
            rw [show ltU16 (a :: l) (a :: p) = ltU16 l p by simp [ltU16]]
            exact ih m p h1 h2
          · rw [show ltU16 (a :: m) (c :: p) = false by
              simp [ltU16, show ¬ a < c by omega, hac]] at h2
            exact absurd h2 (by simp)
        · rw [show ltU16 (a :: l) (b :: m) = false by
            simp [ltU16, show ¬ a < b by omega, hab]] at h1
          exact absurd h1 (by simp)

theorem keyLt_conn {a b : List Char} (h1 : keyLt a b = false)
    (h2 : keyLt b a = false) : a = b :=
  strU16_inj (ltU16_conn _ _ h1 h2)

theorem keyLt_trans {a b c : List Char} (h1 : keyLt a b = true)
    (h2 : keyLt b c = true) : keyLt a c = true :=
  ltU16_trans _ _ _ h1 h2

theorem keyLt_irrefl (a : List Char) : keyLt a a = false :=
  ltU16_irrefl _

theorem insertSorted_perm (s : List Char) (l : List (List Char)) :
    (insertSorted s l).Perm (s :: l) := by
  induction l with
  | nil => exact List.Perm.refl _
  | cons t ts ih =>
    unfold insertSorted
    split
    · exact List.Perm.refl _
    · exact ((ih.cons t).trans (List.Perm.swap s t ts))

theorem sortKeys_perm (l : List (List Char)) : (sortKeys l).Perm l := by
  induction l with
  | nil => exact List.Perm.refl _
  | cons t ts ih =>
    exact (insertSorted_perm t (sortKeys ts)).trans (ih.cons t)

theorem insertSorted_sorted (s : List Char) (l : List (List Char))
    (h : l.Pairwise (fun a b => keyLt b a = false)) :
    (insertSorted s l).Pairwise (fun a b => keyLt b a = false) := by
  induction l with
  | nil => simp [insertSorted]
  | cons t ts ih =>
    unfold insertSorted
    rcases List.pairwise_cons.mp h with ⟨ht, hts⟩
    split
    · rename_i hlt
      refine List.pairwise_cons.mpr ⟨?_, h⟩
      intro b hb
      rcases List.mem_cons.mp hb with rfl | hb
      · cases hkb : keyLt b s
        · rfl
        · exact absurd (keyLt_trans hkb hlt) (by simp [keyLt_irrefl])
      · cases hkb : keyLt b s
        · rfl
        · exfalso
          have hbt : keyLt b t = false := ht b hb
          have htr := keyLt_trans hkb hlt
          rw [htr] at hbt
          exact absurd hbt (by simp)
    · rename_i hnlt
      refine List.pairwise_cons.mpr ⟨?_, ih hts⟩
      intro b hb
      have hb' := (insertSorted_perm s ts).mem_iff.mp hb
      rcases List.mem_cons.mp hb' with rfl | hb'
      · simpa using hnlt
      · exact ht b hb'

theorem sortKeys_sorted (l : List (List Char)) :
    (sortKeys l).Pairwise (fun a b => keyLt b a = false) := by
  induction l with
  | nil => exact List.Pairwise.nil
  | cons t ts ih => exact insertSorted_sorted t (sortKeys ts) ih

theorem sortKeys_strict (l : List (List Char)) (hnd : l.Nodup) :
    (sortKeys l).Pairwise (fun a b => keyLt a b = true) := by
  have hs := sortKeys_sorted l
  have hnd' : (sortKeys l).Nodup := (sortKeys_perm l).nodup_iff.mpr hnd
  have hpair := List.Pairwise.and hs hnd'
  refine hpair.imp ?_
  rintro a b hab
  rcases hab with ⟨hle, hne⟩
  cases hab2 : keyLt a b
  · exact absurd (keyLt_conn hab2 hle) hne
  · rfl

end WeatherDash

namespace WeatherDash

/-! ## Facts about the grouping pass -/

theorem lookupG_insertGroup (gs : Groups) (day : List Char) (it : ForecastItem)
    (q : List Char) :
    lookupG (insertGroup day it gs) q =
      if q = day then
        match lookupG gs day with
        | some (f, items) => some (f, items ++ [it])
        | none => some (it, [])
      else lookupG gs q := by
  induction gs with
  | nil =>
    by_cases hq : q = day
    · subst hq
      simp [insertGroup, lookupG]
    · have hq2 : ¬ day = q := fun h => hq h.symm
      simp [insertGroup, lookupG, hq, hq2]
  | cons g rest ih =>
    rcases g with ⟨k, f, items⟩
    by_cases hk : k = day
    · subst hk
      by_cases hq : q = k
      · subst hq
        simp [insertGroup, lookupG]
      · have hq2 : ¬ k = q := fun h => hq h.symm
        simp [insertGroup, lookupG, hq, hq2]
    · by_cases hq : q = k
      · subst hq
        have hqd : ¬ q = day := fun h => hk (h ▸ rfl)
        simp [insertGroup, lookupG, hk, hqd]
      · have hq2 : ¬ k = q := fun h => hq h.symm
        simp [insertGroup, lookupG, hk, hq2, ih]

theorem keysOf_cons (g : List Char × ForecastItem × List ForecastItem)
    (rest : Groups) : keysOf (g :: rest) = g.1 :: keysOf rest := rfl

theorem lookupG_cons (k : List Char) (f : ForecastItem)
    (items : List ForecastItem) (rest : Groups) (q : List Char) :
    lookupG ((k, f, items) :: rest) q =
      if k = q then some (f, items) else lookupG rest q := rfl

theorem keysOf_insertGroup (gs : Groups) (day : List Char) (it : ForecastItem) :
    keysOf (insertGroup day it gs) =
      if (lookupG gs day).isSome then keysOf gs else keysOf gs ++ [day] := by
  induction gs with
  | nil => simp [insertGroup, keysOf, lookupG]
  | cons g rest ih =>
    rcases g with ⟨k, f, items⟩
    by_cases hk : k = day
    · subst hk
      simp [insertGroup, keysOf, lookupG]
    · simp only [insertGroup, lookupG_cons, if_neg hk]
      rw [keysOf_cons, keysOf_cons, ih]
      cases hs : (lookupG rest day).isSome <;> simp

theorem mem_keysOf_iff (gs : Groups) (d : List Char) :
    d ∈ keysOf gs ↔ (lookupG gs d).isSome = true := by
  induction gs with
  | nil => simp [keysOf, lookupG]
  | cons g rest ih =>
    rcases g with ⟨k, f, items⟩
    rw [keysOf_cons, lookupG_cons]
    by_cases hk : k = d
    · subst hk
      simp
    · have hk2 : ¬ d = k := fun h => hk h.symm
      simp [hk, hk2, ih]

theorem keysOf_nodup_insertGroup (gs : Groups) (day : List Char)
    (it : ForecastItem) (h : (keysOf gs).Nodup) :
    (keysOf (insertGroup day it gs)).Nodup := by
  rw [keysOf_insertGroup]
  cases hs : (lookupG gs day).isSome
  · rw [if_neg (by simp)]
    have hnm : day ∉ keysOf gs := by
      rw [mem_keysOf_iff, hs]
      simp
    rw [List.nodup_append]
    refine ⟨h, List.nodup_singleton day, ?_⟩
    intro a ha hb
    rcases List.mem_singleton.mp hb with rfl
    exact hnm ha
  · rw [if_pos rfl]
    exact h

end WeatherDash

namespace WeatherDash

theorem buildGroups_loop (l : List ForecastItem) :
    ∀ (gs : Groups) (q : List Char),
    lookupG (l.foldl (fun gs it => insertGroup (dayOf it) it gs) gs) q =
      match lookupG gs q, l.filter (fun it => dayOf it == q) with
      | some (f, items), fl => some (f, items ++ fl)
      | none, [] => none
      | none, f :: fl => some (f, fl) := by
  induction l with
  | nil =>
    intro gs q
    cases h : lookupG gs q with
    | none => simp [h]
    | some p => rcases p with ⟨f, items⟩; simp [h]
  | cons it l' ih =>
    intro gs q
    rw [List.foldl_cons, ih, lookupG_insertGroup]
    by_cases hq : dayOf it = q
    · subst hq
      rw [if_pos rfl]
      rw [List.filter_cons_of_pos (by simp)]
      cases h : lookupG gs (dayOf it) with
      | none => simp [h]
      | some p =>
        rcases p with ⟨f, items⟩
        simp [h]
    · have hq2 : ¬ q = dayOf it := fun h => hq h.symm
      rw [if_neg hq2]
      rw [List.filter_cons_of_neg (by simp [hq])]

theorem lookupG_buildGroups (l : List ForecastItem) (q : List Char) :
    lookupG (buildGroups l) q =
      match l.filter (fun it => dayOf it == q) with
      | [] => none
      | f :: fl => some (f, fl) := by
  unfold buildGroups
  rw [buildGroups_loop]
  cases l.filter (fun it => dayOf it == q) <;> simp [lookupG]

theorem lookupG_buildGroups_eq {l : List ForecastItem} {q : List Char}
    {f : ForecastItem} {items : List ForecastItem}
    (h : lookupG (buildGroups l) q = some (f, items)) :
    l.filter (fun it => dayOf it == q) = f :: items := by
  rw [lookupG_buildGroups] at h
  cases hf : l.filter (fun it => dayOf it == q) with
  | nil => rw [hf] at h; cases h
  | cons g gl =>
    rw [hf] at h
    simp only [Option.some.injEq, Prod.mk.injEq] at h
    rw [h.1, h.2]

theorem keysOf_buildGroups_nodup (l : List ForecastItem) :
    (keysOf (buildGroups l)).Nodup := by
  unfold buildGroups
  have haux : ∀ (l : List ForecastItem) (gs : Groups), (keysOf gs).Nodup →
      (keysOf (l.foldl (fun gs it => insertGroup (dayOf it) it gs) gs)).Nodup := by
    intro l
    induction l with
    | nil => intro gs h; simpa using h
    | cons it l' ih =>
      intro gs h
      rw [List.foldl_cons]
      exact ih _ (keysOf_nodup_insertGroup gs (dayOf it) it h)
  exact haux l [] (by simp [keysOf])

theorem mem_keysOf_buildGroups (l : List ForecastItem) (d : List Char) :
    d ∈ keysOf (buildGroups l) ↔ d ∈ l.map dayOf := by
  rw [mem_keysOf_iff, lookupG_buildGroups]
  cases hf : l.filter (fun it => dayOf it == d) with
  | nil =>
    simp only [Option.isSome_none, Bool.false_eq_true, false_iff]
    intro hm
    rcases List.mem_map.mp hm with ⟨x, hx, hdx⟩
    have := List.filter_eq_nil_iff.mp hf x hx
    simp [hdx] at this
  | cons f fl =>
    simp only [Option.isSome_some, true_iff]
    have hmem : f ∈ l.filter (fun it => dayOf it == d) := by
      rw [hf]; exact List.mem_cons_self f fl
    rcases List.mem_filter.mp hmem with ⟨hfl, hfd⟩
    exact List.mem_map.mpr ⟨f, hfl, by simpa using hfd⟩

end WeatherDash

namespace WeatherDash

theorem hourDiffE_of_wf {it : ForecastItem} (h : wfItem it) :
    hourDiffE it = .ok (some (hourDiffD it)) := by
  rcases h with ⟨q, hq⟩
  rw [hourDiffD, hq]

theorem selGo_nil (b : ForecastItem) (bd : Option ℤ) :
    selGo b bd [] = .ok (b, bd) := rfl

theorem selGo_cons_err {it : ForecastItem} {e : Unit} (b : ForecastItem)
    (bd : Option ℤ) (rest : List ForecastItem)
    (h : hourDiffE it = .error e) : selGo b bd (it :: rest) = .error () := by
  simp [selGo, h]

theorem selGo_cons_nan {it : ForecastItem} (b : ForecastItem) (bd : Option ℤ)
    (rest : List ForecastItem) (h : hourDiffE it = .ok none) :
    selGo b bd (it :: rest) = selGo b bd rest := by
  simp [selGo, h]

theorem selGo_cons_inf {it : ForecastItem} {d : ℤ} (b : ForecastItem)
    (rest : List ForecastItem) (h : hourDiffE it = .ok (some d)) :
    selGo b none (it :: rest) = selGo it (some d) rest := by
  simp [selGo, h]

theorem selGo_cons_lt {it : ForecastItem} {d bd : ℤ} (b : ForecastItem)
    (rest : List ForecastItem) (h : hourDiffE it = .ok (some d))
    (hlt : d < bd) : selGo b (some bd) (it :: rest) = selGo it (some d) rest := by
  simp [selGo, h, hlt]

theorem selGo_cons_ge {it : ForecastItem} {d bd : ℤ} (b : ForecastItem)
    (rest : List ForecastItem) (h : hourDiffE it = .ok (some d))
    (hge : ¬ d < bd) : selGo b (some bd) (it :: rest) = selGo b (some bd) rest := by
  simp [selGo, h, hge]

theorem selGo_mem : ∀ (items : List ForecastItem) (b : ForecastItem)
    (bd : Option ℤ) (r : ForecastItem) (rd : Option ℤ),
    selGo b bd items = .ok (r, rd) → r = b ∨ r ∈ items := by
  intro items
  induction items with
  | nil =>
    intro b bd r rd h
    simp only [selGo, Except.ok.injEq, Prod.mk.injEq] at h
    exact Or.inl h.1.symm
  | cons it rest ih =>
    intro b bd r rd h
    cases he : hourDiffE it with
    | error e =>
      rw [selGo_cons_err b bd rest he] at h
      exact Except.noConfusion h
    | ok o =>
      cases o with
      | none =>
        rw [selGo_cons_nan b bd rest he] at h
        rcases ih b bd r rd h with h1 | h1
        · exact Or.inl h1
        · exact Or.inr (List.mem_cons_of_mem _ h1)
      | some d =>
        cases bd with
        | none =>
          rw [selGo_cons_inf b rest he] at h
          rcases ih it (some d) r rd h with h1 | h1
          · exact Or.inr (h1 ▸ List.mem_cons_self it rest)
          · exact Or.inr (List.mem_cons_of_mem _ h1)
        | some bdv =>
          by_cases hlt : d < bdv
          · rw [selGo_cons_lt b rest he hlt] at h
            rcases ih it (some d) r rd h with h1 | h1
            · exact Or.inr (h1 ▸ List.mem_cons_self it rest)
            · exact Or.inr (List.mem_cons_of_mem _ h1)
          · rw [selGo_cons_ge b rest he hlt] at h
            rcases ih b (some bdv) r rd h with h1 | h1
            · exact Or.inl h1
            · exact Or.inr (List.mem_cons_of_mem _ h1)

theorem selGo_argmin : ∀ (items : List ForecastItem) (b : ForecastItem),
    (∀ x ∈ items, wfItem x) →
    ∃ r, selGo b (some (hourDiffD b)) items = .ok (r, some (hourDiffD r)) ∧
      ∃ pre post, b :: items = pre ++ r :: post ∧
        (∀ x ∈ pre, hourDiffD r < hourDiffD x) ∧
        hourDiffD r ≤ hourDiffD b ∧ (∀ x ∈ items, hourDiffD r ≤ hourDiffD x) := by
  intro items
  induction items with
  | nil =>
    intro b _
    refine ⟨b, selGo_nil b _, [], [], rfl, by simp, le_refl _, by simp⟩
  | cons it rest ih =>
    intro b hwf
    have hit : hourDiffE it = .ok (some (hourDiffD it)) :=
      hourDiffE_of_wf (hwf it (List.mem_cons_self it rest))
    have hwfr : ∀ x ∈ rest, wfItem x := fun x hx => hwf x (List.mem_cons_of_mem _ hx)
    by_cases hlt : hourDiffD it < hourDiffD b
    · rcases ih it hwfr with ⟨r, hsel, pre, post, hdec, hpre, hrb, hmin⟩
      refine ⟨r, ?_, b :: pre, post, ?_, ?_, ?_, ?_⟩
      · rw [selGo_cons_lt b rest hit hlt]
        exact hsel
      · rw [List.cons_append, hdec]
      · intro x hx
        rcases List.mem_cons.mp hx with rfl | hx
        · exact lt_of_le_of_lt hrb hlt
        · exact hpre x hx
      · exact le_of_lt (lt_of_le_of_lt hrb hlt)
      · intro x hx
        rcases List.mem_cons.mp hx with rfl | hx
        · exact hrb
        · exact hmin x hx
    · rcases ih b hwfr with ⟨r, hsel, pre, post, hdec, hpre, hrb, hmin⟩
      have hble : hourDiffD b ≤ hourDiffD it := le_of_not_lt hlt
      refine ⟨r, ?_, ?_⟩
      · rw [selGo_cons_ge b rest hit hlt]
        exact hsel
      · cases pre with
        | nil =>
          simp only [List.nil_append] at hdec
          rcases List.cons.inj hdec with ⟨hb, hpost⟩
          refine ⟨[], it :: rest, by rw [hb]; rfl, by simp, hrb, ?_⟩
          intro x hx
          rcases List.mem_cons.mp hx with rfl | hx
          · exact le_trans hrb hble
          · exact hmin x hx
        | cons p0 pre' =>
          rcases List.cons.inj hdec with ⟨hb, hrest⟩
          subst hb
          have hrltb : hourDiffD r < hourDiffD b :=
            hpre b (List.mem_cons_self b pre')
          refine ⟨b :: it :: pre', post, ?_, ?_, hrb, ?_⟩
          · rw [hrest]
            simp
          · intro x hx
            rcases List.mem_cons.mp hx with rfl | hx
            · exact hrltb
            · rcases List.mem_cons.mp hx with rfl | hx
              · exact lt_of_lt_of_le hrltb hble
              · exact hpre x (List.mem_cons_of_mem _ hx)
          · intro x hx
            rcases List.mem_cons.mp hx with rfl | hx
            · exact le_of_lt (lt_of_lt_of_le hrltb hble)
            · exact hmin x hx

theorem selGo_entry (f : ForecastItem) (items : List ForecastItem)
    (hwf : ∀ x ∈ f :: items, wfItem x) :
    ∃ r, selGo f none (f :: items) = .ok (r, some (hourDiffD r)) ∧
      ∃ pre post, f :: items = pre ++ r :: post ∧
        (∀ x ∈ pre, hourDiffD r < hourDiffD x) ∧
        (∀ x ∈ f :: items, hourDiffD r ≤ hourDiffD x) := by
  have hf : hourDiffE f = .ok (some (hourDiffD f)) :=
    hourDiffE_of_wf (hwf f (List.mem_cons_self f items))
  rcases selGo_argmin items f (fun x hx => hwf x (List.mem_cons_of_mem _ hx)) with
    ⟨r, hsel, pre, post, hdec, hpre, hrb, hmin⟩
  refine ⟨r, ?_, pre, post, hdec, hpre, ?_⟩
  · rw [selGo_cons_inf f items hf]
    exact hsel
  · intro x hx
    rcases List.mem_cons.mp hx with rfl | hx
    · exact hrb
    · exact hmin x hx

end WeatherDash

namespace WeatherDash

theorem collectBests_cons (groups : Groups) (day : List Char)
    (rest : List (List Char)) :
    collectBests groups (day :: rest) =
      match lookupG groups day with
      | none => .error ()
      | some (f, items) =>
        match selGo f none (f :: items) with
        | .error e => .error e
        | .ok (b, _) =>
          match collectBests groups rest with
          | .error e => .error e
          | .ok bs => .ok (b :: bs) := rfl

theorem collectBests_forall2 {groups : Groups} :
    ∀ {days : List (List Char)} {res : List ForecastItem},
    collectBests groups days = .ok res → List.Forall₂ (groupSel groups) days res := by
  intro days
  induction days with
  | nil =>
    intro res h
    simp only [collectBests, Except.ok.injEq] at h
    rw [← h]
    exact List.Forall₂.nil
  | cons day rest ih =>
    intro res h
    rw [collectBests_cons] at h
    split at h
    · exact Except.noConfusion h
    · rename_i f items hl
      split at h
      · exact Except.noConfusion h
      · rename_i b bd hs
        split at h
        · exact Except.noConfusion h
        · rename_i bs hcb
          rcases Except.ok.inj h with rfl
          exact List.Forall₂.cons ⟨f, items, bd, hl, hs⟩ (ih hcb)

theorem pickDaily_ok_unpack {list : List ForecastItem} {res : List ForecastItem}
    (h : pickDaily list = .ok res) :
    ∃ res0, collectBests (buildGroups list) (sortKeys (keysOf (buildGroups list))) = .ok res0 ∧
      res = res0.take 5 := by
  have h2 : Except.map (fun rs => List.take 5 rs)
      (collectBests (buildGroups list) (sortKeys (keysOf (buildGroups list)))) = .ok res := h
  cases hcb : collectBests (buildGroups list) (sortKeys (keysOf (buildGroups list))) with
  | error e =>
    rw [hcb] at h2
    exact Except.noConfusion h2
  | ok res0 =>
    rw [hcb] at h2
    refine ⟨res0, rfl, ?_⟩
    simpa [Except.map] using h2.symm

theorem forall2_mem {α β : Type} {R : α → β → Prop} :
    ∀ {ds : List α} {rs : List β}, List.Forall₂ R ds rs →
    ∀ r ∈ rs, ∃ d ∈ ds, R d r := by
  intro ds rs h
  induction h with
  | nil => intro r hr; cases hr
  | cons h1 h2 ih =>
    intro r hr
    rcases List.mem_cons.mp hr with rfl | hr
    · exact ⟨_, List.mem_cons_self _ _, h1⟩
    · rcases ih r hr with ⟨d, hd, hR⟩
      exact ⟨d, List.mem_cons_of_mem _ hd, hR⟩

theorem groupSel_mem_day {list : List ForecastItem} {day : List Char}
    {r : ForecastItem} (h : groupSel (buildGroups list) day r) :
    r ∈ list ∧ dayOf r = day := by
  rcases h with ⟨f, items, bd, hl, hs⟩
  have hfil := lookupG_buildGroups_eq hl
  have hrmem : r ∈ f :: items := by
    rcases selGo_mem (f :: items) f none r bd hs with h1 | h1
    · exact h1 ▸ List.mem_cons_self f items
    · exact h1
  rw [← hfil] at hrmem
  rcases List.mem_filter.mp hrmem with ⟨hrl, hrd⟩
  exact ⟨hrl, by simpa using hrd⟩

theorem forall2_map_day {list : List ForecastItem} :
    ∀ {days : List (List Char)} {res0 : List ForecastItem},
    List.Forall₂ (groupSel (buildGroups list)) days res0 →
    res0.map dayOf = days := by
  intro days res0 h
  induction h with
  | nil => rfl
  | cons h1 h2 ih =>
    rw [List.map_cons, ih, (groupSel_mem_day h1).2]

end WeatherDash

namespace WeatherDash

/-- C3: the summarizer returns one entry per distinct calendar date, capped
    at 5, and returns the empty list on empty input. -/
theorem claim_summarize_length :
    (∀ (list res : List ForecastItem), pickDaily list = .ok res →
      res.length = min ((list.map dayOf).dedup.length) 5) ∧
    pickDaily ([] : List ForecastItem) = .ok [] := by
  constructor
  · intro list res h
    rcases pickDaily_ok_unpack h with ⟨res0, hcb, rfl⟩
    have hf2 := collectBests_forall2 hcb
    have hlen : (sortKeys (keysOf (buildGroups list))).length = res0.length :=
      hf2.length_eq
    have hperm := sortKeys_perm (keysOf (buildGroups list))
    have hkeys : (keysOf (buildGroups list)).length = (list.map dayOf).dedup.length := by
      have hnd := keysOf_buildGroups_nodup list
      have hperm2 : (keysOf (buildGroups list)).Perm ((list.map dayOf).dedup) :=
        (List.perm_ext_iff_of_nodup hnd (list.map dayOf).nodup_dedup).mpr
          (fun a => by rw [mem_keysOf_buildGroups, List.mem_dedup])
      exact hperm2.length_eq
    rw [List.length_take, ← hlen, hperm.length_eq, hkeys, Nat.min_comm]
  · rfl

/-- C4: the calendar dates of the summarizer's output are strictly
    increasing in the UTF-16 string order used by the key sort, and no date
    repeats. -/
theorem claim_dates_strictly_increasing (list res : List ForecastItem)
    (h : pickDaily list = .ok res) :
    res.Pairwise (fun a b => keyLt (dayOf a) (dayOf b) = true) ∧
      (res.map dayOf).Nodup := by
  rcases pickDaily_ok_unpack h with ⟨res0, hcb, rfl⟩
  have hf2 := collectBests_forall2 hcb
  have hmap : res0.map dayOf = sortKeys (keysOf (buildGroups list)) :=
    forall2_map_day hf2
  have hstrict := sortKeys_strict _ (keysOf_buildGroups_nodup list)
  have hp : (res0.map dayOf).Pairwise (fun a b => keyLt a b = true) := by
    rw [hmap]
    exact hstrict
  have hp5 : ((res0.take 5).map dayOf).Pairwise (fun a b => keyLt a b = true) := by
    rw [List.map_take]
    exact hp.sublist (List.take_sublist _ _)
  refine ⟨List.pairwise_map.mp hp5, ?_⟩
  refine hp5.imp ?_
  intro a b hab he
  rw [he, keyLt_irrefl] at hab
  exact absurd hab (by simp)

/-- C10: every summarizer output element is one of the input samples, and
    the output's dates are exactly the first five sorted distinct day
    keys of the input, in order. -/
theorem claim_output_subset_input (list res : List ForecastItem)
    (h : pickDaily list = .ok res) :
    (∀ r ∈ res, r ∈ list) ∧
      res.map dayOf = (sortKeys (keysOf (buildGroups list))).take 5 := by
  rcases pickDaily_ok_unpack h with ⟨res0, hcb, rfl⟩
  have hf2 := collectBests_forall2 hcb
  constructor
  · intro r hr
    have hr0 : r ∈ res0 := List.take_subset 5 res0 hr
    rcases forall2_mem hf2 r hr0 with ⟨d, hd, hrel⟩
    exact (groupSel_mem_day hrel).1
  · rw [List.map_take, forall2_map_day hf2]

/-- C2: every summarizer output element is the first element of its day
    group (the input samples sharing its date, in input order) whose
    noon distance is minimal: everything before it in the group is
    strictly farther from 12:00 and nothing in the group is nearer. -/
theorem claim_noon_closest_first (list res : List ForecastItem)
    (hwf : ∀ it ∈ list, wfItem it) (h : pickDaily list = .ok res) :
    ∀ r ∈ res, ∃ pre post,
      list.filter (fun it => dayOf it == dayOf r) = pre ++ r :: post ∧
      (∀ x ∈ pre, hourDiffD r < hourDiffD x) ∧
      (∀ x ∈ list.filter (fun it => dayOf it == dayOf r),
        hourDiffD r ≤ hourDiffD x) := by
  rcases pickDaily_ok_unpack h with ⟨res0, hcb, rfl⟩
  have hf2 := collectBests_forall2 hcb
  intro r hr
  have hr0 : r ∈ res0 := List.take_subset 5 res0 hr
  rcases forall2_mem hf2 r hr0 with ⟨day, hday, hrel⟩
  have hdayr : dayOf r = day := (groupSel_mem_day hrel).2
  rcases hrel with ⟨f, items, bd, hl, hs⟩
  have hfil := lookupG_buildGroups_eq hl
  have hwfg : ∀ x ∈ f :: items, wfItem x := by
    intro x hx
    rw [← hfil] at hx
    exact hwf x (List.mem_filter.mp hx).1
  rcases selGo_entry f items hwfg with ⟨r', hsel', pre, post, hdec, hpre, hmin⟩
  have hinj := hs.symm.trans hsel'
  have hrr : r = r' := (Prod.mk.inj (Except.ok.inj hinj)).1
  rw [hdayr, hfil]
  refine ⟨pre, post, ?_, ?_, ?_⟩
  · rw [← hrr] at hdec
    exact hdec
  · intro x hx
    rw [hrr]
    exact hpre x hx
  · intro x hx
    rw [hrr]
    exact hmin x hx

end WeatherDash

namespace WeatherDash

/-! ## Branch lemmas for runSearch -/

theorem runSearch_blank (st : SearchState) (cityName : String) (hasKey : Bool)
    (geoRes : Except String (Option Geo)) (curRes : Except String WeatherNow)
    (fcRes : Except String ForecastRes) (hq : jsTrim cityName.data = []) :
    runSearch st cityName hasKey geoRes curRes fcRes = (st, []) := by
  simp [runSearch, hq]

theorem runSearch_nokey (st : SearchState) (cityName : String)
    (geoRes : Except String (Option Geo)) (curRes : Except String WeatherNow)
    (fcRes : Except String ForecastRes) (hq : jsTrim cityName.data ≠ []) :
    runSearch st cityName false geoRes curRes fcRes =
      ({ st with error := some missingKeyMsg }, []) := by
  simp [runSearch, hq]

theorem runSearch_geo_error (st : SearchState) (cityName : String)
    (e : String) (curRes : Except String WeatherNow)
    (fcRes : Except String ForecastRes) (hq : jsTrim cityName.data ≠ []) :
    runSearch st cityName true (.error e) curRes fcRes =
      (applyCatch { st with loading := true, error := none } e, [.geocodeCall]) := by
  simp [runSearch, hq]

theorem runSearch_geo_none (st : SearchState) (cityName : String)
    (curRes : Except String WeatherNow) (fcRes : Except String ForecastRes)
    (hq : jsTrim cityName.data ≠ []) :
    runSearch st cityName true (.ok none) curRes fcRes =
      (applyCatch { st with loading := true, error := none } "City not found",
        [.geocodeCall]) := by
  simp [runSearch, hq]

theorem runSearch_fetch_error (st : SearchState) (cityName : String) (g : Geo)
    (e : String) (curRes : Except String WeatherNow)
    (fcRes : Except String ForecastRes) (hq : jsTrim cityName.data ≠ [])
    (hpa : promiseAll curRes fcRes = .error e) :
    runSearch st cityName true (.ok (some g)) curRes fcRes =
      (applyCatch { st with loading := true, error := none, city := some g } e,
        [.geocodeCall, .currentCall, .forecastCall]) := by
  simp [runSearch, hq, hpa]

theorem runSearch_success (st : SearchState) (cityName : String) (g : Geo)
    (w : WeatherNow) (f : ForecastRes) (daily : List ForecastItem)
    (hq : jsTrim cityName.data ≠ []) (hpd : pickDaily f.list = .ok daily) :
    runSearch st cityName true (.ok (some g)) (.ok w) (.ok f) =
      ({ st with
          loading := false
          error := none
          city := some g
          now := some w
          fc := some daily
          recent := saveRecent st.recent g.name },
        [.geocodeCall, .currentCall, .forecastCall]) := by
  simp [runSearch, promiseAll, hq, hpd]

end WeatherDash

namespace WeatherDash

/-- C8: a blank (all-whitespace) query is a complete no-op: the state is
    returned unchanged and no network request is issued. -/
theorem claim_blank_noop (st : SearchState) (cityName : String) (hasKey : Bool)
    (geoRes : Except String (Option Geo)) (curRes : Except String WeatherNow)
    (fcRes : Except String ForecastRes) (hq : jsTrim cityName.data = []) :
    runSearch st cityName hasKey geoRes curRes fcRes = (st, []) :=
  runSearch_blank st cityName hasKey geoRes curRes fcRes hq

/-- C7: with a non-blank query and no API credential, the search sets the
    missing-key error, changes nothing else, and issues no network
    request. -/
theorem claim_missing_key (st : SearchState) (cityName : String)
    (geoRes : Except String (Option Geo)) (curRes : Except String WeatherNow)
    (fcRes : Except String ForecastRes) (hq : jsTrim cityName.data ≠ []) :
    runSearch st cityName false geoRes curRes fcRes =
      ({ st with error := some missingKeyMsg }, []) :=
  runSearch_nokey st cityName geoRes curRes fcRes hq

/-- C5: when geocoding succeeds but at least one weather fetch fails, the
    final state carries no current conditions, no forecast, and a non-null
    error — never exactly one of the two weather payloads. -/
theorem claim_all_or_nothing (st : SearchState) (cityName : String) (g : Geo)
    (curRes : Except String WeatherNow) (fcRes : Except String ForecastRes)
    (hq : jsTrim cityName.data ≠ [])
    (hfail : (∃ e, curRes = .error e) ∨ (∃ e, fcRes = .error e)) :
    (runSearch st cityName true (.ok (some g)) curRes fcRes).1.now = none ∧
    (runSearch st cityName true (.ok (some g)) curRes fcRes).1.fc = none ∧
    (runSearch st cityName true (.ok (some g)) curRes fcRes).1.error.isSome = true := by
  have hpa : ∃ e, promiseAll curRes fcRes = .error e := by
    rcases hfail with ⟨e, he⟩ | ⟨e, he⟩
    · exact ⟨e, by simp [promiseAll, he]⟩
    · cases curRes with
      | error e2 => exact ⟨e2, by simp [promiseAll]⟩
      | ok w => exact ⟨e, by simp [promiseAll, he]⟩
  rcases hpa with ⟨e, hpa⟩
  rw [runSearch_fetch_error st cityName g e curRes fcRes hq hpa]
  simp [applyCatch]

/-- C1 (amended): a failed search records the failure message, clears the
    current conditions and the forecast, stops loading, and leaves the
    query and the recent list alone — but the resolved city is NOT
    cleared: it keeps its previous value when geocoding fails, and holds
    the newly resolved location when a weather fetch fails. -/
theorem claim_failed_search_amended (st : SearchState) (cityName : String)
    (geoRes : Except String (Option Geo)) (curRes : Except String WeatherNow)
    (fcRes : Except String ForecastRes) (hq : jsTrim cityName.data ≠ [])
    (hfail : (∃ e, geoRes = .error e) ∨ geoRes = .ok none ∨
      (∃ g e, geoRes = .ok (some g) ∧ promiseAll curRes fcRes = .error e)) :
    (runSearch st cityName true geoRes curRes fcRes).1.error =
      (match geoRes with
        | .error e => some (jsMessageOr e)
        | .ok none => some (jsMessageOr "City not found")
        | .ok (some _) =>
          match promiseAll curRes fcRes with
          | .error e => some (jsMessageOr e)
          | .ok _ => none) ∧
    (runSearch st cityName true geoRes curRes fcRes).1.now = none ∧
    (runSearch st cityName true geoRes curRes fcRes).1.fc = none ∧
    (runSearch st cityName true geoRes curRes fcRes).1.loading = false ∧
    (runSearch st cityName true geoRes curRes fcRes).1.city =
      (match geoRes with
        | .ok (some g) => some g
        | _ => st.city) ∧
    (runSearch st cityName true geoRes curRes fcRes).1.recent = st.recent ∧
    (runSearch st cityName true geoRes curRes fcRes).1.q = st.q := by
  rcases hfail with ⟨e, rfl⟩ | rfl | ⟨g, e, rfl, hpa⟩
  · rw [runSearch_geo_error st cityName e curRes fcRes hq]
    simp [applyCatch]
  · rw [runSearch_geo_none st cityName curRes fcRes hq]
    simp [applyCatch]
  · rw [runSearch_fetch_error st cityName g e curRes fcRes hq hpa]
    simp [applyCatch, hpa]


/-- C6: a fully successful search updates the recent list by removing the
    case-insensitive duplicates of the resolved name, prepending the
    resolved name, and keeping the first 6; the update never exceeds 6
    entries, and seven pairwise-distinct city names leave exactly the last
    six, newest first. -/
theorem claim_recent_update :
    (∀ (st : SearchState) (cityName : String) (g : Geo) (w : WeatherNow)
      (f : ForecastRes) (daily : List ForecastItem),
      jsTrim cityName.data ≠ [] → pickDaily f.list = .ok daily →
      (runSearch st cityName true (.ok (some g)) (.ok w) (.ok f)).1.recent =
        (g.name :: st.recent.filter
          (fun c => jsToLower c ≠ jsToLower g.name)).take 6) ∧
    (∀ (recent : List String) (name : String),
      (saveRecent recent name).length ≤ 6) ∧
    (∀ n1 n2 n3 n4 n5 n6 n7 : String,
      ([n1, n2, n3, n4, n5, n6, n7].Pairwise
        (fun a b => jsToLower a ≠ jsToLower b)) →
      [n1, n2, n3, n4, n5, n6, n7].foldl saveRecent [] =
        [n7, n6, n5, n4, n3, n2]) := by
  refine ⟨?_, ?_, ?_⟩
  · intro st cityName g w f daily hq hpd
    rw [runSearch_success st cityName g w f daily hq hpd]
    rfl
  · intro recent name
    exact List.length_take_le 6 _
  · intro n1 n2 n3 n4 n5 n6 n7 hp
    simp only [List.pairwise_cons, List.mem_cons, List.mem_singleton,
      List.not_mem_nil] at hp
    obtain ⟨h1, h2, h3, h4, h5, h6, -⟩ := hp
    simp [saveRecent, List.filter,
      h1 n2 (by simp), h1 n3 (by simp), h1 n4 (by simp), h1 n5 (by simp),
      h1 n6 (by simp), h1 n7 (by simp),
      h2 n3 (by simp), h2 n4 (by simp), h2 n5 (by simp), h2 n6 (by simp),
      h2 n7 (by simp),
      h3 n4 (by simp), h3 n5 (by simp), h3 n6 (by simp), h3 n7 (by simp),
      h4 n5 (by simp), h4 n6 (by simp), h4 n7 (by simp),
      h5 n6 (by simp), h5 n7 (by simp),
      h6 n7 (by simp)]

end WeatherDash

namespace WeatherDash

/-! ## C1: counterexample and C9 -/

/-- C1 (counterexample): a search that fails at geocoding leaves the
    previously resolved city in place — city is not cleared to null as the
    claim states. -/
theorem claim_failed_search_cex :
    (runSearch stOld "London" true (.error "Geocoding failed") curErr fcErr).1.error =
      some "Geocoding failed" ∧
    (runSearch stOld "London" true (.error "Geocoding failed") curErr fcErr).1.city =
      some gOld ∧
    some gOld ≠ (none : Option Geo) := by
  refine ⟨rfl, rfl, by simp⟩

/-- C9 (amended): the loader yields the empty array when the stored value
    is absent, empty, or unparseable, and otherwise yields the parsed JSON
    value as is — which need not be an array of strings. -/
theorem claim_load_recent_amended :
    loadRecent none = Json.jarr [] ∧
    loadRecent (some "") = Json.jarr [] ∧
    (∀ s : String, jsonParse s = none → loadRecent (some s) = Json.jarr []) ∧
    (∀ (s : String) (v : Json), s ≠ "" → jsonParse s = some v →
      loadRecent (some s) = v) := by
  refine ⟨rfl, rfl, ?_, ?_⟩
  · intro s hs
    by_cases he : s = ""
    · subst he
      rfl
    · simp [loadRecent, he, hs]
  · intro s v hne hv
    simp [loadRecent, hne, hv]

/-- C9 (counterexample): the stored text 42 parses as a JSON number, so
    the loader returns a non-array value, not a list of strings. -/
theorem claim_load_recent_cex :
    loadRecent (some "42") = Json.jnum "42" ∧
    isStringList (Json.jnum "42") = false :=
  ⟨rfl, rfl⟩

/-! ## Witnesses -/

/-- Witness for C2 at sampleFeed: the hour-9 sample is selected for the
    day with hours 3, 9, 15, 21 — the first of the two samples at distance
    3 from noon. -/
theorem claim_noon_closest_first_witness :
    ∃ pre post,
      sampleFeed.filter (fun it => dayOf it == dayOf noonSample) =
        pre ++ noonSample :: post ∧
      (∀ x ∈ pre, hourDiffD noonSample < hourDiffD x) ∧
      (∀ x ∈ sampleFeed.filter (fun it => dayOf it == dayOf noonSample),
        hourDiffD noonSample ≤ hourDiffD x) := by
  have hwf : ∀ it ∈ sampleFeed, wfItem it := by
    intro it hit
    simp only [sampleFeed, List.mem_cons, List.not_mem_nil, or_false] at hit
    rcases hit with rfl | rfl | rfl | rfl | rfl | rfl
    · exact ⟨90, rfl⟩
    · exact ⟨30, rfl⟩
    · exact ⟨30, rfl⟩
    · exact ⟨90, rfl⟩
    · exact ⟨120, rfl⟩
    · exact ⟨0, rfl⟩
  exact claim_noon_closest_first sampleFeed sampleOut hwf rfl noonSample
    (List.mem_cons_self _ _)

/-- Witness for C3 at sampleFeed (two distinct dates, output length 2). -/
theorem claim_summarize_length_witness :
    sampleOut.length = min ((sampleFeed.map dayOf).dedup.length) 5 :=
  claim_summarize_length.1 sampleFeed sampleOut rfl

/-- Witness for C4 at sampleFeed. -/
theorem claim_dates_strictly_increasing_witness :
    sampleOut.Pairwise (fun a b => keyLt (dayOf a) (dayOf b) = true) ∧
      (sampleOut.map dayOf).Nodup :=
  claim_dates_strictly_increasing sampleFeed sampleOut rfl

/-- Witness for C10 at sampleFeed. -/
theorem claim_output_subset_input_witness :
    (∀ r ∈ sampleOut, r ∈ sampleFeed) ∧
      sampleOut.map dayOf =
        (sortKeys (keysOf (buildGroups sampleFeed))).take 5 :=
  claim_output_subset_input sampleFeed sampleOut rfl

/-- Witness for C8: a three-space query changes nothing. -/
theorem claim_blank_noop_witness :
    runSearch stOld "   " true (.error "Geocoding failed") curErr fcErr =
      (stOld, []) :=
  claim_blank_noop stOld "   " true (.error "Geocoding failed") curErr fcErr rfl

/-- Witness for C7: no credential, non-blank query. -/
theorem claim_missing_key_witness :
    runSearch stOld "London" false (.error "Geocoding failed") curErr fcErr =
      ({ stOld with error := some missingKeyMsg }, []) :=
  claim_missing_key stOld "London" (.error "Geocoding failed") curErr fcErr
    (by decide)

/-- Witness for C5: geocoding succeeds, the current-conditions fetch
    fails. -/
theorem claim_all_or_nothing_witness :
    (runSearch stOld "Paris" true (.ok (some gParis)) curErr (.ok fEmpty)).1.now = none ∧
    (runSearch stOld "Paris" true (.ok (some gParis)) curErr (.ok fEmpty)).1.fc = none ∧
    (runSearch stOld "Paris" true (.ok (some gParis)) curErr (.ok fEmpty)).1.error.isSome = true :=
  claim_all_or_nothing stOld "Paris" gParis curErr (.ok fEmpty) (by decide)
    (Or.inl ⟨"Weather data failed to load", rfl⟩)

/-- Witness for C1 (amended): geocoding failure keeps the old city. -/
theorem claim_failed_search_amended_witness :
    (runSearch stOld "London" true (.error "Geocoding failed") curErr fcErr).1.error =
      some "Geocoding failed" ∧
    (runSearch stOld "London" true (.error "Geocoding failed") curErr fcErr).1.now = none ∧
    (runSearch stOld "London" true (.error "Geocoding failed") curErr fcErr).1.fc = none ∧
    (runSearch stOld "London" true (.error "Geocoding failed") curErr fcErr).1.loading = false ∧
    (runSearch stOld "London" true (.error "Geocoding failed") curErr fcErr).1.city = stOld.city ∧
    (runSearch stOld "London" true (.error "Geocoding failed") curErr fcErr).1.recent = stOld.recent ∧
    (runSearch stOld "London" true (.error "Geocoding failed") curErr fcErr).1.q = stOld.q :=
  claim_failed_search_amended stOld "London" (.error "Geocoding failed") curErr
    fcErr (by decide) (Or.inl ⟨"Geocoding failed", rfl⟩)

/-- Witness for C6: one successful search filters and prepends; the
    case-insensitive removal identifies non-ASCII case pairs (searching
    z-umlaut-rich removes the stored upper-cased variant); and seven
    distinct names keep only the last six. -/
theorem claim_recent_update_witness :
    (runSearch stOld "Paris" true (.ok (some gParis)) (.ok wParis) (.ok fEmpty)).1.recent =
      (gParis.name :: stOld.recent.filter
        (fun c => jsToLower c ≠ jsToLower gParis.name)).take 6 ∧
    (runSearch stZurich "zurich" true (.ok (some gZurich)) (.ok wParis) (.ok fEmpty)).1.recent =
      (gZurich.name :: stZurich.recent.filter
        (fun c => jsToLower c ≠ jsToLower gZurich.name)).take 6 ∧
    (gZurich.name :: stZurich.recent.filter
      (fun c => jsToLower c ≠ jsToLower gZurich.name)).take 6 = [gZurich.name] ∧
    ["A", "B", "C", "D", "E", "F", "G"].foldl saveRecent [] =
      ["G", "F", "E", "D", "C", "B"] := by
  have h := claim_recent_update
  exact ⟨h.1 stOld "Paris" gParis wParis fEmpty [] (by decide) rfl,
    h.1 stZurich "zurich" gZurich wParis fEmpty [] (by decide) rfl,
    by decide,
    h.2.2 "A" "B" "C" "D" "E" "F" "G" (by decide)⟩

/-- Witness for C9 (amended): a malformed value loads as the empty array,
    a well-formed one loads as its parse. -/
theorem claim_load_recent_amended_witness :
    loadRecent (some "oops") = Json.jarr [] ∧
    loadRecent (some "[\"Paris\"]") = Json.jarr [Json.jstr "Paris"] := by
  have h := claim_load_recent_amended
  exact ⟨h.2.2.1 "oops" rfl,
    h.2.2.2 "[\"Paris\"]" (Json.jarr [Json.jstr "Paris"]) (by decide) rfl⟩

end WeatherDash
